import Mathlib

/-!
Verification of the RustyKaspaWallet core (src/RustyKaspaWallet/src/lib.rs).

The wallet coordinates two optional RPC transports (wRPC and gRPC) to a
Kaspa node, enforces the node's UTXO-index capability at connect time,
resolves a transaction's inputs against fetched UTXOs, and signs via an
external multi-key signer.  External collaborators (the two transport
libraries, the RPC layer, the address codec, the multi-key signer and the
transaction finalizer) are modelled as oracle parameters: records of the
outcomes their calls would produce.  Each wallet operation is embedded as a
pure function from its arguments and oracles to its result paired with the
list of external events it performed, in order.
-/

/-! ## Basic data model (kaspa_consensus_core / kaspa_rpc_core types, restricted
to the fields the wallet code reads) -/

/-- Network type selected in the configuration (kaspa NetworkType). -/
inductive NetworkType where
  | mainnet
  | testnet
  | devnet
  | simnet
deriving DecidableEq, Repr

/-- Transaction ids are 256-bit hashes; modelled as Nat. -/
abbrev TransactionId := Nat

/-- An outpoint: the (transaction id, output index) pair identifying a UTXO.
(kaspa_consensus_core::tx::TransactionOutpoint). -/
structure TransactionOutpoint where
  transactionId : TransactionId
  index : Nat
deriving DecidableEq, Repr

/-- RpcTransactionOutpoint mirrors TransactionOutpoint fieldwise; the source
converts between them with a fieldwise From impl, so we share one type. -/
abbrev RpcTransactionOutpoint := TransactionOutpoint

/-- A UTXO entry: the spendable data behind an outpoint
(kaspa_consensus_core::tx::UtxoEntry; the RPC mirror converts fieldwise). -/
structure UtxoEntry where
  amount : Nat
  scriptPublicKey : List Nat
  blockDaaScore : Nat
  isCoinbase : Bool
deriving DecidableEq, Repr

/-- One element of a get_utxos_by_addresses response
(kaspa_rpc_core RpcUtxosByAddressesEntry). -/
structure RpcUtxosByAddressesEntry where
  outpoint : RpcTransactionOutpoint
  utxo_entry : UtxoEntry
deriving DecidableEq, Repr

/-- A transaction input, referencing exactly one previous outpoint. -/
structure TransactionInput where
  previous_outpoint : TransactionOutpoint
  signature_script : List Nat
  sequence : Nat
  sig_op_count : Nat
deriving DecidableEq, Repr

/-- A transaction output. -/
structure TransactionOutput where
  value : Nat
  scriptPublicKey : List Nat
deriving DecidableEq, Repr

/-- A transaction (kaspa_consensus_core::tx::Transaction, the fields the
wallet code touches). -/
structure Transaction where
  version : Nat
  inputs : List TransactionInput
  outputs : List TransactionOutput
  lockTime : Nat
deriving DecidableEq, Repr

/-- RpcTransaction is produced from Transaction by an external fieldwise
conversion (RpcTransaction::from); modelled as the same data. -/
abbrev RpcTransaction := Transaction

/-- RpcTransactionId is a transaction hash returned by submit_transaction. -/
abbrev RpcTransactionId := Nat

/-- Address parse errors from the external kaspa_addresses codec; the wallet
only wraps them, so the payload is kept as a message string. -/
abbrev AddressError := String

/-- A parsed Kaspa address (external kaspa_addresses::Address); the wallet
never inspects it, only forwards it, so it is modelled by its text. -/
structure Address where
  raw : String
deriving DecidableEq, Repr

/-- Server info response; the wallet reads only the has_utxo_index flag
(kaspa_rpc_core GetServerInfoResponse). -/
structure GetServerInfoResponse where
  has_utxo_index : Bool
deriving DecidableEq, Repr

/-- Errors of the hex crate's decode, plus InvalidStringLength which the
wallet itself raises for keys that are not exactly 32 bytes. -/
inductive FromHexError where
  | invalidHexCharacter (c : Char) (index : Nat)
  | oddLength
  | invalidStringLength
deriving DecidableEq, Repr

/-- WalletError from lib.rs.  Transport/RPC/BIP32 error payloads are opaque
to the wallet and modelled as message strings. -/
inductive WalletError where
  | noEndpoints
  | wrpc (e : String)
  | grpc (e : String)
  | rpc (e : String)
  | address (e : AddressError)
  | bip32 (e : String)
  | hex (e : FromHexError)
  | missingUtxo (outpoint : TransactionOutpoint)
  | partialSignature
  | missingUtxoIndex
deriving DecidableEq, Repr

/-! ## Configuration and transport oracles -/

/-- wRPC encoding choice (kaspa_wrpc_client WrpcEncoding). -/
inductive WrpcEncoding where
  | borsh
  | serdeJson
deriving DecidableEq, Repr

/-- WalletConfig from lib.rs. -/
structure WalletConfig where
  network_type : NetworkType
  wrpc_url : Option String
  wrpc_encoding : WrpcEncoding
  wrpc_connect_timeout : Option Nat
  grpc_url : Option String
deriving DecidableEq, Repr

/-- WalletConfig::new. -/
def WalletConfig.new (network_type : NetworkType) : WalletConfig :=
  { network_type := network_type
    wrpc_url := none
    wrpc_encoding := .borsh
    wrpc_connect_timeout := some 10
    grpc_url := none }

/-- WalletConfig::with_wrpc_url. -/
def WalletConfig.with_wrpc_url (c : WalletConfig) (url : String) : WalletConfig :=
  { c with wrpc_url := some url }

/-- WalletConfig.with_grpc_url. -/
def WalletConfig.with_grpc_url (c : WalletConfig) (url : String) : WalletConfig :=
  { c with grpc_url := some url }

/-- The wRPC client handle: the oracle outcomes of each method the wallet
invokes on a connected KaspaRpcClient. -/
structure WrpcClient where
  connectRes : Except String Unit
  startRes : Except String Unit
  serverInfo : Except String GetServerInfoResponse
  get_utxos_by_addresses : List Address → Except String (List RpcUtxosByAddressesEntry)
  submit_transaction : RpcTransaction → Bool → Except String RpcTransactionId

/-- The gRPC client handle: oracle outcomes of each GrpcClient method the
wallet invokes (GrpcClient::start takes no options and cannot fail). -/
structure GrpcClient where
  serverInfo : Except String GetServerInfoResponse
  get_utxos_by_addresses : List Address → Except String (List RpcUtxosByAddressesEntry)
  submit_transaction : RpcTransaction → Bool → Except String RpcTransactionId

/-- Outcomes of the two client constructors: KaspaRpcClient::new and
GrpcClient::connect. -/
structure TransportOracle where
  wrpcNew : Except String WrpcClient
  grpcConnect : Except String GrpcClient

instance {ε α : Type} [DecidableEq ε] [DecidableEq α] : DecidableEq (Except ε α)
  | .error a, .error b =>
    if h : a = b then .isTrue (by rw [h]) else .isFalse (by simp [h])
  | .error _, .ok _ => .isFalse (by simp)
  | .ok _, .error _ => .isFalse (by simp)
  | .ok a, .ok b =>
    if h : a = b then .isTrue (by rw [h]) else .isFalse (by simp [h])

/-- External events performed during connect, in order. -/
inductive ConnEvent where
  | wrpcNew
  | wrpcConnect
  | wrpcStart
  | wrpcServerInfo (r : Except String GetServerInfoResponse)
  | grpcConnect
  | grpcStart
  | grpcServerInfo (r : Except String GetServerInfoResponse)
deriving DecidableEq, Repr

/-- The wallet session after a successful connect (the tokio runtime is an
execution context with no observable data and is omitted). -/
structure RustyKaspaWallet where
  network_type : NetworkType
  wrpc_client : Option WrpcClient
  grpc_client : Option GrpcClient

/-- enforce_utxo_index from lib.rs: reject server info lacking the UTXO
index. -/
def enforce_utxo_index (info : GetServerInfoResponse) : Except WalletError Unit :=
  if !info.has_utxo_index then
    Except.error WalletError.missingUtxoIndex
  else
    Except.ok ()

/-- The wRPC arm of connect (lib.rs lines 103-121): construct the client,
connect, start, then gate on the UTXO index; any failure propagates. -/
def wrpcConnectFlow (o : TransportOracle) :
    Except WalletError WrpcClient × List ConnEvent :=
  match o.wrpcNew with
  | .error e => (.error (.wrpc e), [.wrpcNew])
  | .ok client =>
    match client.connectRes with
    | .error e => (.error (.wrpc e), [.wrpcNew, .wrpcConnect])
    | .ok _ =>
      match client.startRes with
      | .error e => (.error (.wrpc e), [.wrpcNew, .wrpcConnect, .wrpcStart])
      | .ok _ =>
        match client.serverInfo with
        | .error e =>
          (.error (.rpc e),
            [.wrpcNew, .wrpcConnect, .wrpcStart, .wrpcServerInfo (.error e)])
        | .ok info =>
          match enforce_utxo_index info with
          | .error e =>
            (.error e,
              [.wrpcNew, .wrpcConnect, .wrpcStart, .wrpcServerInfo (.ok info)])
          | .ok _ =>
            (.ok client,
              [.wrpcNew, .wrpcConnect, .wrpcStart, .wrpcServerInfo (.ok info)])

/-- The gRPC arm of connect (lib.rs lines 123-133): connect (the URL is
normalized first, which does not affect the oracle outcome), start
(infallible), then gate on the UTXO index; any failure propagates. -/
def grpcConnectFlow (o : TransportOracle) :
    Except WalletError GrpcClient × List ConnEvent :=
  match o.grpcConnect with
  | .error e => (.error (.grpc e), [.grpcConnect])
  | .ok client =>
    match client.serverInfo with
    | .error e =>
      (.error (.rpc e), [.grpcConnect, .grpcStart, .grpcServerInfo (.error e)])
    | .ok info =>
      match enforce_utxo_index info with
      | .error e =>
        (.error e, [.grpcConnect, .grpcStart, .grpcServerInfo (.ok info)])
      | .ok _ =>
        (.ok client, [.grpcConnect, .grpcStart, .grpcServerInfo (.ok info)])

/-- RustyKaspaWallet::connect (lib.rs lines 97-145).  Each configured
transport is connected and capability-gated in turn; a failure in either
arm returns that error immediately (the `?` operator).  If neither URL is
configured the result is NoEndpoints; otherwise the session stores the
connected clients. -/
def RustyKaspaWallet.connect (config : WalletConfig) (o : TransportOracle) :
    Except WalletError RustyKaspaWallet × List ConnEvent :=
  match config.wrpc_url with
  | some _ =>
    match wrpcConnectFlow o with
    | (.error e, tr) => (.error e, tr)
    | (.ok wclient, wtr) =>
      match config.grpc_url with
      | some _ =>
        match grpcConnectFlow o with
        | (.error e, gtr) => (.error e, wtr ++ gtr)
        | (.ok gclient, gtr) =>
          (.ok { network_type := config.network_type
                 wrpc_client := some wclient
                 grpc_client := some gclient }, wtr ++ gtr)
      | none =>
        (.ok { network_type := config.network_type
               wrpc_client := some wclient
               grpc_client := none }, wtr)
  | none =>
    match config.grpc_url with
    | some _ =>
      match grpcConnectFlow o with
      | (.error e, gtr) => (.error e, gtr)
      | (.ok gclient, gtr) =>
        (.ok { network_type := config.network_type
               wrpc_client := none
               grpc_client := some gclient }, gtr)
    | none => (.error .noEndpoints, [])

/-! ## Network operations of a connected session -/

/-- Network events performed by get_utxos / broadcast_transaction. -/
inductive NetEvent where
  | wrpcGetUtxos (addresses : List Address)
  | grpcGetUtxos (addresses : List Address)
  | wrpcSubmit (tx : RpcTransaction) (allow_orphans : Bool)
  | grpcSubmit (tx : RpcTransaction) (allow_orphans : Bool)
deriving DecidableEq, Repr

/-- RustyKaspaWallet::get_utxos (lib.rs lines 147-165): parse the address
string via the external codec, then query the wRPC client if present, else
the gRPC client if present, else fail with NoEndpoints.  The codec is the
external kaspa_addresses TryFrom impl, passed as an oracle. -/
def RustyKaspaWallet.get_utxos (w : RustyKaspaWallet)
    (codec : String → Except AddressError Address) (address : String) :
    Except WalletError (List RpcUtxosByAddressesEntry) × List NetEvent :=
  match codec address with
  | .error e => (.error (.address e), [])
  | .ok rpc_address =>
    match w.wrpc_client with
    | some client =>
      ((client.get_utxos_by_addresses [rpc_address]).mapError WalletError.rpc,
        [.wrpcGetUtxos [rpc_address]])
    | none =>
      match w.grpc_client with
      | some client =>
        ((client.get_utxos_by_addresses [rpc_address]).mapError WalletError.rpc,
          [.grpcGetUtxos [rpc_address]])
      | none => (.error .noEndpoints, [])

/-- RustyKaspaWallet::broadcast_transaction (lib.rs lines 167-189): convert
the transaction to its RPC form, then submit over the wRPC client if
present, else the gRPC client if present, else fail with NoEndpoints. -/
def RustyKaspaWallet.broadcast_transaction (w : RustyKaspaWallet)
    (transaction : Transaction) (allow_orphans : Bool) :
    Except WalletError RpcTransactionId × List NetEvent :=
  let rpc_tx : RpcTransaction := transaction
  match w.wrpc_client with
  | some client =>
    ((client.submit_transaction rpc_tx allow_orphans).mapError WalletError.rpc,
      [.wrpcSubmit rpc_tx allow_orphans])
  | none =>
    match w.grpc_client with
    | some client =>
      ((client.submit_transaction rpc_tx allow_orphans).mapError WalletError.rpc,
        [.grpcSubmit rpc_tx allow_orphans])
    | none => (.error .noEndpoints, [])

/-! ## Hex decoding (the hex crate) and key decoding -/

/-- Value of one hex digit, if valid (hex crate semantics: 0-9, a-f, A-F). -/
def hexVal (c : Char) : Option Nat :=
  if '0' ≤ c ∧ c ≤ '9' then some (c.toNat - '0'.toNat)
  else if 'a' ≤ c ∧ c ≤ 'f' then some (c.toNat - 'a'.toNat + 10)
  else if 'A' ≤ c ∧ c ≤ 'F' then some (c.toNat - 'A'.toNat + 10)
  else none

/-- Decode an even-length character list two digits at a time, reporting the
index of the first invalid character (hex crate semantics). -/
def hexDecodeAux : List Char → Nat → Except FromHexError (List Nat)
  | [], _ => .ok []
  | [_], _ => .error .oddLength
  | c1 :: c2 :: rest, i =>
    match hexVal c1 with
    | none => .error (.invalidHexCharacter c1 i)
    | some hi =>
      match hexVal c2 with
      | none => .error (.invalidHexCharacter c2 (i + 1))
      | some lo =>
        match hexDecodeAux rest (i + 2) with
        | .error e => .error e
        | .ok bytes => .ok ((16 * hi + lo) :: bytes)

/-- hex::decode: odd-length input fails with OddLength, otherwise the string
is decoded pairwise into bytes. -/
def hexDecode (s : String) : Except FromHexError (List Nat) :=
  if s.length % 2 ≠ 0 then .error .oddLength else hexDecodeAux s.data 0

/-- The key-decoding loop of sign_transaction (lib.rs lines 214-222): decode
each key from hex, then require exactly 32 bytes, mapping a wrong length to
Hex(InvalidStringLength). -/
def decode_keys : List String → Except WalletError (List (List Nat))
  | [] => .ok []
  | key :: rest =>
    match hexDecode key with
    | .error e => .error (.hex e)
    | .ok data =>
      if data.length = 32 then
        match decode_keys rest with
        | .error e => .error e
        | .ok keys => .ok (data :: keys)
      else .error (.hex .invalidStringLength)

/-! ## UTXO resolution and signing -/

/-- Lookup in the HashMap built by sign_transaction (lib.rs lines 197-201):
the map is populated by inserting each fetched entry in order, so for a
duplicated outpoint the last fetched entry wins. -/
def utxo_map_get (utxos : List RpcUtxosByAddressesEntry)
    (outpoint : RpcTransactionOutpoint) : Option UtxoEntry :=
  match utxos with
  | [] => none
  | e :: rest =>
    match utxo_map_get rest outpoint with
    | some u => some u
    | none => if e.outpoint = outpoint then some e.utxo_entry else none

/-- The per-input resolution loop of sign_transaction (lib.rs lines
203-211): look each input's previous outpoint up in the UTXO map, failing
with MissingUtxo on the first absent one. -/
def resolve_entries (utxos : List RpcUtxosByAddressesEntry) :
    List TransactionInput → Except WalletError (List UtxoEntry)
  | [] => .ok []
  | input :: rest =>
    match utxo_map_get utxos input.previous_outpoint with
    | none => .error (.missingUtxo input.previous_outpoint)
    | some u =>
      match resolve_entries utxos rest with
      | .error e => .error e
      | .ok entries => .ok (u :: entries)

/-- A transaction paired with the resolved entry for each input
(kaspa_consensus_core SignableTransaction). -/
structure SignableTransaction where
  tx : Transaction
  entries : List UtxoEntry
deriving DecidableEq, Repr

/-- SignableTransaction::with_entries. -/
def SignableTransaction.with_entries (tx : Transaction) (entries : List UtxoEntry) :
    SignableTransaction :=
  { tx := tx, entries := entries }

/-- Outcome of the external multi-key signer (kaspa_consensus_core Signed). -/
inductive Signed where
  | fully (tx : SignableTransaction)
  | partially (tx : SignableTransaction)
deriving DecidableEq, Repr

/-- Oracles for the external signing collaborators: sign_with_multiple_v2
and Transaction::finalize. -/
structure SignOracle where
  sign_with_multiple_v2 : SignableTransaction → List (List Nat) → Signed
  finalize : Transaction → Transaction

/-- External events performed during sign_transaction. -/
inductive SignEvent where
  | signerInvoked (signable : SignableTransaction) (keys : List (List Nat))
deriving DecidableEq, Repr

/-- RustyKaspaWallet::sign_transaction (lib.rs lines 191-232): resolve every
input against the fetched UTXOs, decode the hex keys, invoke the external
multi-key signer, reject a partially signed outcome, and finalize a fully
signed transaction.  The method reads no session state. -/
def RustyKaspaWallet.sign_transaction (o : SignOracle) (transaction : Transaction)
    (utxos : List RpcUtxosByAddressesEntry) (private_keys : List String) :
    Except WalletError Transaction × List SignEvent :=
  match resolve_entries utxos transaction.inputs with
  | .error e => (.error e, [])
  | .ok entries =>
    let signable := SignableTransaction.with_entries transaction entries
    match decode_keys private_keys with
    | .error e => (.error e, [])
    | .ok key_bytes =>
      match o.sign_with_multiple_v2 signable key_bytes with
      | .partially _ => (.error .partialSignature, [.signerInvoked signable key_bytes])
      | .fully completed =>
        (.ok (o.finalize completed.tx), [.signerInvoked signable key_bytes])

/-! ## Concrete fixtures used by witnesses and counterexamples -/

/-- Server info advertising the UTXO index. -/
def infoWithIndex : GetServerInfoResponse := { has_utxo_index := true }

/-- Server info lacking the UTXO index. -/
def infoNoIndex : GetServerInfoResponse := { has_utxo_index := false }

/-- A wRPC client whose every call succeeds. -/
def sampleWrpcClient : WrpcClient :=
  { connectRes := .ok ()
    startRes := .ok ()
    serverInfo := .ok infoWithIndex
    get_utxos_by_addresses := fun _ => .ok []
    submit_transaction := fun _ _ => .ok 7 }

/-- A gRPC client whose every call succeeds. -/
def sampleGrpcClient : GrpcClient :=
  { serverInfo := .ok infoWithIndex
    get_utxos_by_addresses := fun _ => .ok []
    submit_transaction := fun _ _ => .ok 9 }

/-- An oracle where both transports connect and pass the capability gate. -/
def sampleOracle : TransportOracle :=
  { wrpcNew := .ok sampleWrpcClient, grpcConnect := .ok sampleGrpcClient }

/-- A wRPC client whose connect call is refused. -/
def failingWrpcClient : WrpcClient :=
  { sampleWrpcClient with connectRes := .error "refused" }

/-- An oracle where the wRPC connect fails but gRPC would succeed. -/
def oracleWrpcConnectFails : TransportOracle :=
  { wrpcNew := .ok failingWrpcClient, grpcConnect := .ok sampleGrpcClient }

/-- A configuration with both transport URLs set. -/
def cfgBoth : WalletConfig :=
  ((WalletConfig.new .mainnet).with_wrpc_url "wrpc://node").with_grpc_url "node:16110"

/-! ## C1: fate of a failed transport during connect -/

/-- C1 counterexample: with both transports configured, the wRPC connect
step failing and the gRPC transport connecting and passing its capability
check, connect does not return a successful session holding None for the
failed transport; it propagates the wRPC error.  This refutes the claim
that a connect failure of one configured transport is fatal to that
transport only. -/
theorem connect_wrpc_failure_aborts_despite_grpc :
    (grpcConnectFlow oracleWrpcConnectFails).1 = Except.ok sampleGrpcClient
    ∧ (RustyKaspaWallet.connect cfgBoth oracleWrpcConnectFails).1
        = Except.error (WalletError.wrpc "refused") := by
  exact ⟨rfl, rfl⟩

/-- C1 amended: a connect (or start, or capability-check) failure of a
configured transport is fatal to the whole session construction: connect
propagates that transport's error (checking wRPC first) instead of storing
None for it, and a session is returned only when every configured transport
connected and passed its capability check, in which case its handle is
stored. -/
theorem connect_configured_transport_failure_is_fatal
    (config : WalletConfig) (o : TransportOracle) :
    (∀ e tr, wrpcConnectFlow o = (Except.error e, tr) →
      config.wrpc_url.isSome = true →
      (RustyKaspaWallet.connect config o).1 = Except.error e)
    ∧ (∀ e tr, grpcConnectFlow o = (Except.error e, tr) →
      config.grpc_url.isSome = true →
      (config.wrpc_url = none ∨ ∃ c tr2, wrpcConnectFlow o = (Except.ok c, tr2)) →
      (RustyKaspaWallet.connect config o).1 = Except.error e)
    ∧ (∀ w, (RustyKaspaWallet.connect config o).1 = Except.ok w →
      (config.wrpc_url.isSome = true →
        ∃ c, (wrpcConnectFlow o).1 = Except.ok c ∧ w.wrpc_client = some c)
      ∧ (config.grpc_url.isSome = true →
        ∃ c, (grpcConnectFlow o).1 = Except.ok c ∧ w.grpc_client = some c)) := by
  refine ⟨?_, ?_, ?_⟩
  · intro e tr hflow hsome
    rcases hcw : config.wrpc_url with _ | u
    · rw [hcw] at hsome; simp at hsome
    · simp only [RustyKaspaWallet.connect, hcw, hflow]
  · intro e tr hflow hsome hok
    rcases hcg : config.grpc_url with _ | v
    · rw [hcg] at hsome; simp at hsome
    · rcases hcw : config.wrpc_url with _ | u
      · simp only [RustyKaspaWallet.connect, hcw, hcg, hflow]
      · rcases hok with hnone | ⟨c, tr2, hwok⟩
        · rw [hcw] at hnone; exact absurd hnone (by simp)
        · simp only [RustyKaspaWallet.connect, hcw, hcg, hwok, hflow]
  · intro w hw
    rcases hcw : config.wrpc_url with _ | u <;>
      rcases hcg : config.grpc_url with _ | v <;>
      simp only [RustyKaspaWallet.connect, hcw, hcg] at hw
    · exact absurd hw (by simp)
    · rcases hfg : grpcConnectFlow o with ⟨gres, gtr⟩
      rw [hfg] at hw
      rcases gres with e | gc
      · exact absurd hw (by simp)
      · simp only [Except.ok.injEq] at hw
        subst hw
        constructor
        · intro h; simp [hcw] at h
        · intro _; exact ⟨gc, rfl, rfl⟩
    · rcases hfw : wrpcConnectFlow o with ⟨wres, wtr⟩
      rw [hfw] at hw
      rcases wres with e | wc
      · exact absurd hw (by simp)
      · simp only [Except.ok.injEq] at hw
        subst hw
        constructor
        · intro _; exact ⟨wc, rfl, rfl⟩
        · intro h; simp [hcg] at h
    · rcases hfw : wrpcConnectFlow o with ⟨wres, wtr⟩
      rw [hfw] at hw
      rcases wres with e | wc
      · exact absurd hw (by simp)
      · rcases hfg : grpcConnectFlow o with ⟨gres, gtr⟩
        rw [hfg] at hw
        rcases gres with e | gc
        · exact absurd hw (by simp)
        · simp only [Except.ok.injEq] at hw
          subst hw
          exact ⟨fun _ => ⟨wc, rfl, rfl⟩, fun _ => ⟨gc, rfl, rfl⟩⟩

/-- C1 amended witness: at the concrete failing-wRPC oracle the first part
of the amended theorem yields the propagated error. -/
theorem connect_configured_transport_failure_is_fatal_witness :
    (RustyKaspaWallet.connect cfgBoth oracleWrpcConnectFails).1
      = Except.error (WalletError.wrpc "refused") :=
  (connect_configured_transport_failure_is_fatal cfgBoth oracleWrpcConnectFails).1
    (WalletError.wrpc "refused") [ConnEvent.wrpcNew, ConnEvent.wrpcConnect] rfl rfl

/-! ## C6: NoEndpoints and the at-least-one-handle invariant -/

/-- C6: connect fails with NoEndpoints when neither transport URL is
configured, and every successfully constructed session holds at least one
transport handle. -/
theorem connect_no_endpoints_and_handle_invariant
    (config : WalletConfig) (o : TransportOracle) :
    (config.wrpc_url = none → config.grpc_url = none →
      (RustyKaspaWallet.connect config o).1 = Except.error WalletError.noEndpoints)
    ∧ (∀ w, (RustyKaspaWallet.connect config o).1 = Except.ok w →
      w.wrpc_client.isSome = true ∨ w.grpc_client.isSome = true) := by
  constructor
  · intro h1 h2
    simp only [RustyKaspaWallet.connect, h1, h2]
  · intro w hw
    rcases (connect_configured_transport_failure_is_fatal config o).2.2 w hw with ⟨h1, h2⟩
    rcases hcw : config.wrpc_url with _ | u
    · rcases hcg : config.grpc_url with _ | v
      · simp only [RustyKaspaWallet.connect, hcw, hcg] at hw
        exact absurd hw (by simp)
      · rcases h2 (by rw [hcg]; rfl) with ⟨c, _, hc⟩
        right; rw [hc]; rfl
    · rcases h1 (by rw [hcw]; rfl) with ⟨c, _, hc⟩
      left; rw [hc]; rfl

/-- C6 witness: the unconfigured config fails with NoEndpoints, and the
fully configured sample connect yields a session with a handle. -/
theorem connect_no_endpoints_witness :
    (RustyKaspaWallet.connect (WalletConfig.new .mainnet) sampleOracle).1
      = Except.error WalletError.noEndpoints :=
  (connect_no_endpoints_and_handle_invariant (WalletConfig.new .mainnet) sampleOracle).1
    rfl rfl

/-! ## C5: the UTXO-index capability gate -/

/-- Whether an event is a wRPC server-info query. -/
def isWrpcServerInfoEvent : ConnEvent → Bool
  | .wrpcServerInfo _ => true
  | _ => false

/-- Whether an event is a gRPC server-info query. -/
def isGrpcServerInfoEvent : ConnEvent → Bool
  | .grpcServerInfo _ => true
  | _ => false


/-- Exhaustive description of the wRPC connect arm: its result and trace
take exactly one of six shapes. -/
theorem wrpcConnectFlow_shape (o : TransportOracle) :
    (∃ e, wrpcConnectFlow o = (.error (.wrpc e), [.wrpcNew]))
    ∨ (∃ e, wrpcConnectFlow o = (.error (.wrpc e), [.wrpcNew, .wrpcConnect]))
    ∨ (∃ e, wrpcConnectFlow o = (.error (.wrpc e), [.wrpcNew, .wrpcConnect, .wrpcStart]))
    ∨ (∃ e, wrpcConnectFlow o = (.error (.rpc e),
        [.wrpcNew, .wrpcConnect, .wrpcStart, .wrpcServerInfo (.error e)]))
    ∨ (∃ info, info.has_utxo_index = false
        ∧ wrpcConnectFlow o = (.error .missingUtxoIndex,
            [.wrpcNew, .wrpcConnect, .wrpcStart, .wrpcServerInfo (.ok info)]))
    ∨ (∃ c info, info.has_utxo_index = true
        ∧ wrpcConnectFlow o = (.ok c,
            [.wrpcNew, .wrpcConnect, .wrpcStart, .wrpcServerInfo (.ok info)])) := by
  rcases hn : o.wrpcNew with e | client
  · exact .inl ⟨e, by simp [wrpcConnectFlow, hn]⟩
  rcases hc : client.connectRes with e | u
  · exact .inr (.inl ⟨e, by simp [wrpcConnectFlow, hn, hc]⟩)
  rcases hs : client.startRes with e | u2
  · exact .inr (.inr (.inl ⟨e, by simp [wrpcConnectFlow, hn, hc, hs]⟩))
  rcases hsi : client.serverInfo with e | info
  · exact .inr (.inr (.inr (.inl ⟨e, by simp [wrpcConnectFlow, hn, hc, hs, hsi]⟩)))
  rcases hidx : info.has_utxo_index
  · exact .inr (.inr (.inr (.inr (.inl ⟨info, hidx,
      by simp [wrpcConnectFlow, hn, hc, hs, hsi, enforce_utxo_index, hidx]⟩))))
  · exact .inr (.inr (.inr (.inr (.inr ⟨client, info, hidx,
      by simp [wrpcConnectFlow, hn, hc, hs, hsi, enforce_utxo_index, hidx]⟩))))

/-- Exhaustive description of the gRPC connect arm: its result and trace
take exactly one of four shapes. -/
theorem grpcConnectFlow_shape (o : TransportOracle) :
    (∃ e, grpcConnectFlow o = (.error (.grpc e), [.grpcConnect]))
    ∨ (∃ e, grpcConnectFlow o = (.error (.rpc e),
        [.grpcConnect, .grpcStart, .grpcServerInfo (.error e)]))
    ∨ (∃ info, info.has_utxo_index = false
        ∧ grpcConnectFlow o = (.error .missingUtxoIndex,
            [.grpcConnect, .grpcStart, .grpcServerInfo (.ok info)]))
    ∨ (∃ c info, info.has_utxo_index = true
        ∧ grpcConnectFlow o = (.ok c,
            [.grpcConnect, .grpcStart, .grpcServerInfo (.ok info)])) := by
  rcases hn : o.grpcConnect with e | client
  · exact .inl ⟨e, by simp [grpcConnectFlow, hn]⟩
  rcases hsi : client.serverInfo with e | info
  · exact .inr (.inl ⟨e, by simp [grpcConnectFlow, hn, hsi]⟩)
  rcases hidx : info.has_utxo_index
  · exact .inr (.inr (.inl ⟨info, hidx,
      by simp [grpcConnectFlow, hn, hsi, enforce_utxo_index, hidx]⟩))
  · exact .inr (.inr (.inr ⟨client, info, hidx,
      by simp [grpcConnectFlow, hn, hsi, enforce_utxo_index, hidx]⟩))

/-- C5: whenever connect actually receives a server-info response whose
has_utxo_index flag is false, session construction fails with the
distinguishable MissingUtxoIndex error (on either transport); and a
successful connect has queried server info exactly once per configured
transport and never for an unconfigured one. -/
theorem connect_enforces_utxo_index (config : WalletConfig) (o : TransportOracle) :
    (∀ info, ConnEvent.wrpcServerInfo (Except.ok info) ∈ (RustyKaspaWallet.connect config o).2 →
      info.has_utxo_index = false →
      (RustyKaspaWallet.connect config o).1 = Except.error WalletError.missingUtxoIndex)
    ∧ (∀ info, ConnEvent.grpcServerInfo (Except.ok info) ∈ (RustyKaspaWallet.connect config o).2 →
      info.has_utxo_index = false →
      (RustyKaspaWallet.connect config o).1 = Except.error WalletError.missingUtxoIndex)
    ∧ (∀ w, (RustyKaspaWallet.connect config o).1 = Except.ok w →
      (RustyKaspaWallet.connect config o).2.countP isWrpcServerInfoEvent
          = (if config.wrpc_url.isSome then 1 else 0)
      ∧ (RustyKaspaWallet.connect config o).2.countP isGrpcServerInfoEvent
          = (if config.grpc_url.isSome then 1 else 0)) := by
  rcases hcw : config.wrpc_url with _ | u <;> rcases hcg : config.grpc_url with _ | v
  · simp [RustyKaspaWallet.connect, hcw, hcg]
  · rcases grpcConnectFlow_shape o with ⟨e, hG⟩ | ⟨e, hG⟩ | ⟨infoG, hidxG, hG⟩ |
        ⟨cG, infoG, hidxG, hG⟩ <;>
      simp only [RustyKaspaWallet.connect, hcw, hcg, hG] <;>
      simp_all [isWrpcServerInfoEvent, isGrpcServerInfoEvent,
        List.countP_cons, List.countP_nil]
  · rcases wrpcConnectFlow_shape o with ⟨e, hW⟩ | ⟨e, hW⟩ | ⟨e, hW⟩ | ⟨e, hW⟩ |
        ⟨infoW, hidxW, hW⟩ | ⟨cW, infoW, hidxW, hW⟩ <;>
      simp only [RustyKaspaWallet.connect, hcw, hcg, hW] <;>
      simp_all [isWrpcServerInfoEvent, isGrpcServerInfoEvent,
        List.countP_cons, List.countP_nil]
  · rcases wrpcConnectFlow_shape o with ⟨e, hW⟩ | ⟨e, hW⟩ | ⟨e, hW⟩ | ⟨e, hW⟩ |
        ⟨infoW, hidxW, hW⟩ | ⟨cW, infoW, hidxW, hW⟩
    · simp only [RustyKaspaWallet.connect, hcw, hcg, hW]
      simp [isWrpcServerInfoEvent, isGrpcServerInfoEvent]
    · simp only [RustyKaspaWallet.connect, hcw, hcg, hW]
      simp [isWrpcServerInfoEvent, isGrpcServerInfoEvent]
    · simp only [RustyKaspaWallet.connect, hcw, hcg, hW]
      simp [isWrpcServerInfoEvent, isGrpcServerInfoEvent]
    · simp only [RustyKaspaWallet.connect, hcw, hcg, hW]
      simp [isWrpcServerInfoEvent, isGrpcServerInfoEvent]
    · simp only [RustyKaspaWallet.connect, hcw, hcg, hW]
      simp_all [isWrpcServerInfoEvent, isGrpcServerInfoEvent]
    · rcases grpcConnectFlow_shape o with ⟨e, hG⟩ | ⟨e, hG⟩ | ⟨infoG, hidxG, hG⟩ |
          ⟨cG, infoG, hidxG, hG⟩ <;>
        simp only [RustyKaspaWallet.connect, hcw, hcg, hW, hG] <;>
        simp_all [isWrpcServerInfoEvent, isGrpcServerInfoEvent,
          List.countP_cons, List.countP_nil, List.countP_append]

/-- An oracle whose gRPC node is reachable but reports no UTXO index. -/
def oracleGrpcNoIndex : TransportOracle :=
  { wrpcNew := .ok sampleWrpcClient
    grpcConnect := .ok { sampleGrpcClient with serverInfo := .ok infoNoIndex } }

/-- C5 witness: at the concrete oracle whose gRPC node lacks the UTXO
index, connect fails with MissingUtxoIndex. -/
theorem connect_enforces_utxo_index_witness :
    (RustyKaspaWallet.connect cfgBoth oracleGrpcNoIndex).1
      = Except.error WalletError.missingUtxoIndex :=
  (connect_enforces_utxo_index cfgBoth oracleGrpcNoIndex).2.1 infoNoIndex
    (by decide) rfl

/-! ## C8: address parsing precedes any network call in get_utxos -/

/-- C8: get_utxos parses the address string before performing any network
call: a malformed address fails with the Address error and an empty network
trace, and a nonempty network trace implies the address parsed
successfully. -/
theorem get_utxos_parses_address_before_network (w : RustyKaspaWallet)
    (codec : String → Except AddressError Address) (address : String) :
    (∀ e, codec address = Except.error e →
      w.get_utxos codec address = (Except.error (WalletError.address e), []))
    ∧ ((w.get_utxos codec address).2 ≠ [] → ∃ a, codec address = Except.ok a) := by
  constructor
  · intro e he
    simp [RustyKaspaWallet.get_utxos, he]
  · intro htr
    rcases hc : codec address with e | a
    · simp [RustyKaspaWallet.get_utxos, hc] at htr
    · exact ⟨a, by simp [hc]⟩

/-- A codec rejecting every address. -/
def badCodec : String → Except AddressError Address := fun _ => .error "bad"

/-- A codec accepting every address verbatim. -/
def goodCodec : String → Except AddressError Address := fun s => .ok { raw := s }

/-- A session holding only a wRPC handle. -/
def sampleWallet : RustyKaspaWallet :=
  { network_type := .mainnet
    wrpc_client := some sampleWrpcClient
    grpc_client := none }

/-- C8 witness: a malformed address fails without touching the network. -/
theorem get_utxos_parses_address_before_network_witness :
    sampleWallet.get_utxos badCodec "oops"
      = (Except.error (WalletError.address "bad"), []) :=
  (get_utxos_parses_address_before_network sampleWallet badCodec "oops").1 "bad" rfl

/-! ## C9: fixed transport preference for public network operations -/

/-- C9: each public network operation (get_utxos with a well-formed address
and broadcast_transaction) performs exactly one network call, on the wRPC
client when present, else on the gRPC client when present, and fails with
NoEndpoints (touching no transport) when neither handle is present. -/
theorem network_ops_use_single_preferred_transport (w : RustyKaspaWallet)
    (codec : String → Except AddressError Address) (address : String) (a : Address)
    (transaction : Transaction) (allow_orphans : Bool) :
    (codec address = Except.ok a →
      (∀ c, w.wrpc_client = some c →
        w.get_utxos codec address
          = ((c.get_utxos_by_addresses [a]).mapError WalletError.rpc,
              [NetEvent.wrpcGetUtxos [a]]))
      ∧ (∀ c, w.wrpc_client = none → w.grpc_client = some c →
        w.get_utxos codec address
          = ((c.get_utxos_by_addresses [a]).mapError WalletError.rpc,
              [NetEvent.grpcGetUtxos [a]]))
      ∧ (w.wrpc_client = none → w.grpc_client = none →
        w.get_utxos codec address = (Except.error WalletError.noEndpoints, [])))
    ∧ ((∀ c, w.wrpc_client = some c →
        w.broadcast_transaction transaction allow_orphans
          = ((c.submit_transaction transaction allow_orphans).mapError WalletError.rpc,
              [NetEvent.wrpcSubmit transaction allow_orphans]))
      ∧ (∀ c, w.wrpc_client = none → w.grpc_client = some c →
        w.broadcast_transaction transaction allow_orphans
          = ((c.submit_transaction transaction allow_orphans).mapError WalletError.rpc,
              [NetEvent.grpcSubmit transaction allow_orphans]))
      ∧ (w.wrpc_client = none → w.grpc_client = none →
        w.broadcast_transaction transaction allow_orphans
          = (Except.error WalletError.noEndpoints, []))) := by
  refine ⟨fun hca => ⟨?_, ?_, ?_⟩, ?_, ?_, ?_⟩ <;> intros <;>
    simp_all [RustyKaspaWallet.get_utxos, RustyKaspaWallet.broadcast_transaction]

/-- C9 witness: a wRPC-only session serves get_utxos over the wRPC client
alone. -/
theorem network_ops_use_single_preferred_transport_witness :
    sampleWallet.get_utxos goodCodec "addr"
      = ((sampleWrpcClient.get_utxos_by_addresses [{ raw := "addr" }]).mapError
          WalletError.rpc,
        [NetEvent.wrpcGetUtxos [{ raw := "addr" }]]) :=
  ((network_ops_use_single_preferred_transport sampleWallet goodCodec "addr"
      { raw := "addr" } (Transaction.mk 0 [] [] 0) true).1 rfl).1 sampleWrpcClient rfl

/-! ## C3: totality of UTXO resolution -/

theorem utxo_map_get_eq_none_iff (utxos : List RpcUtxosByAddressesEntry)
    (k : RpcTransactionOutpoint) :
    utxo_map_get utxos k = none ↔ ∀ e ∈ utxos, e.outpoint ≠ k := by
  induction utxos with
  | nil => simp [utxo_map_get]
  | cons e rest ih =>
    simp only [utxo_map_get, List.forall_mem_cons]
    cases h : utxo_map_get rest k with
    | some u =>
      have hno : ¬∀ e ∈ rest, e.outpoint ≠ k := by
        rw [← ih, h]; simp
      simp [hno]
    | none =>
      have hrest : ∀ e ∈ rest, e.outpoint ≠ k := ih.1 h
      by_cases he : e.outpoint = k
      · rw [if_pos he]; simp [he]
      · rw [if_neg he]; exact iff_of_true rfl ⟨he, hrest⟩

theorem utxo_map_get_mem_of_eq_some (utxos : List RpcUtxosByAddressesEntry)
    (k : RpcTransactionOutpoint) (u : UtxoEntry)
    (h : utxo_map_get utxos k = some u) :
    ∃ e ∈ utxos, e.outpoint = k ∧ e.utxo_entry = u := by
  induction utxos with
  | nil => simp [utxo_map_get] at h
  | cons e rest ih =>
    simp only [utxo_map_get] at h
    cases h2 : utxo_map_get rest k with
    | some u2 =>
      rw [h2] at h
      injection h with h3
      subst h3
      rcases ih h2 with ⟨e2, hmem, hk, he⟩
      exact ⟨e2, List.mem_cons_of_mem _ hmem, hk, he⟩
    | none =>
      rw [h2] at h
      by_cases he : e.outpoint = k
      · rw [if_pos he] at h
        injection h with h3
        exact ⟨e, List.mem_cons_self _ _, he, h3⟩
      · rw [if_neg he] at h
        cases h

theorem utxo_map_get_isSome_of_mem (utxos : List RpcUtxosByAddressesEntry)
    (k : RpcTransactionOutpoint)
    (h : ∃ e ∈ utxos, e.outpoint = k) :
    ∃ u, utxo_map_get utxos k = some u := by
  cases hm : utxo_map_get utxos k with
  | some u => exact ⟨u, rfl⟩
  | none =>
    rcases h with ⟨e, hmem, hk⟩
    exact absurd hk ((utxo_map_get_eq_none_iff utxos k).1 hm e hmem)

theorem resolve_entries_total (utxos : List RpcUtxosByAddressesEntry)
    (inputs : List TransactionInput)
    (h : ∀ input ∈ inputs, ∃ e ∈ utxos, e.outpoint = input.previous_outpoint) :
    ∃ entries, resolve_entries utxos inputs = Except.ok entries
      ∧ entries.length = inputs.length
      ∧ ∀ (i : Nat) (inp : TransactionInput), inputs[i]? = some inp →
          entries[i]? = utxo_map_get utxos inp.previous_outpoint := by
  induction inputs with
  | nil => exact ⟨[], rfl, rfl, by simp⟩
  | cons inp rest ih =>
    rcases utxo_map_get_isSome_of_mem utxos inp.previous_outpoint
        (h inp (List.mem_cons_self _ _)) with ⟨u, hu⟩
    rcases ih (fun i hi => h i (List.mem_cons_of_mem _ hi)) with ⟨entries, hres, hlen, hpos⟩
    refine ⟨u :: entries, ?_, by simp [hlen], ?_⟩
    · simp only [resolve_entries, hu, hres]
    · intro i inp2 hinp
      cases i with
      | zero =>
        simp only [List.getElem?_cons_zero, Option.some.injEq] at hinp
        subst hinp
        simp [hu]
      | succ n =>
        simp only [List.getElem?_cons_succ] at hinp ⊢
        exact hpos n inp2 hinp

theorem resolve_entries_missing (utxos : List RpcUtxosByAddressesEntry)
    (inputs : List TransactionInput)
    (h : ∃ input ∈ inputs, ∀ e ∈ utxos, e.outpoint ≠ input.previous_outpoint) :
    ∃ k, resolve_entries utxos inputs = Except.error (WalletError.missingUtxo k)
      ∧ (∃ inp ∈ inputs, inp.previous_outpoint = k)
      ∧ ∀ e ∈ utxos, e.outpoint ≠ k := by
  induction inputs with
  | nil => simp at h
  | cons inp rest ih =>
    cases hu : utxo_map_get utxos inp.previous_outpoint with
    | none =>
      refine ⟨inp.previous_outpoint, ?_, ⟨inp, List.mem_cons_self _ _, rfl⟩, ?_⟩
      · simp only [resolve_entries, hu]
      · exact (utxo_map_get_eq_none_iff utxos inp.previous_outpoint).1 hu
    | some u =>
      have hrest : ∃ input ∈ rest, ∀ e ∈ utxos, e.outpoint ≠ input.previous_outpoint := by
        rcases h with ⟨inp2, hmem, hnone⟩
        rcases List.mem_cons.1 hmem with h1 | h1
        · subst h1
          rcases utxo_map_get_mem_of_eq_some utxos inp2.previous_outpoint u hu with
            ⟨e, hmem2, hk, _⟩
          exact absurd hk (hnone e hmem2)
        · exact ⟨inp2, h1, hnone⟩
      rcases ih hrest with ⟨k, hres, ⟨inp2, hmem2, hk2⟩, hnone2⟩
      refine ⟨k, ?_, ⟨inp2, List.mem_cons_of_mem _ hmem2, hk2⟩, hnone2⟩
      simp only [resolve_entries, hu, hres]

/-- C3: UTXO resolution inside sign_transaction is total over well-formed
input: if every input outpoint appears among the fetched UTXOs, resolution
succeeds with one entry per input, positionally the entry the UTXO map
holds for that input's outpoint (itself one of the fetched entries); if
some input outpoint is absent, sign_transaction fails with MissingUtxo
naming an unmatched input outpoint. -/
theorem sign_transaction_resolution_total (o : SignOracle) (transaction : Transaction)
    (utxos : List RpcUtxosByAddressesEntry) (private_keys : List String) :
    ((∀ input ∈ transaction.inputs, ∃ e ∈ utxos, e.outpoint = input.previous_outpoint) →
      ∃ entries, resolve_entries utxos transaction.inputs = Except.ok entries
        ∧ entries.length = transaction.inputs.length
        ∧ ∀ (i : Nat) (inp : TransactionInput), transaction.inputs[i]? = some inp →
            entries[i]? = utxo_map_get utxos inp.previous_outpoint
            ∧ ∃ e ∈ utxos, e.outpoint = inp.previous_outpoint
                ∧ entries[i]? = some e.utxo_entry)
    ∧ ((∃ input ∈ transaction.inputs,
          ∀ e ∈ utxos, e.outpoint ≠ input.previous_outpoint) →
      ∃ k, (RustyKaspaWallet.sign_transaction o transaction utxos private_keys).1
            = Except.error (WalletError.missingUtxo k)
        ∧ (∃ inp ∈ transaction.inputs, inp.previous_outpoint = k)
        ∧ ∀ e ∈ utxos, e.outpoint ≠ k) := by
  constructor
  · intro h
    rcases resolve_entries_total utxos transaction.inputs h with ⟨entries, hres, hlen, hpos⟩
    refine ⟨entries, hres, hlen, ?_⟩
    intro i inp hinp
    refine ⟨hpos i inp hinp, ?_⟩
    rcases utxo_map_get_isSome_of_mem utxos inp.previous_outpoint
        (h inp (List.getElem?_mem hinp)) with ⟨u, hu⟩
    rcases utxo_map_get_mem_of_eq_some utxos inp.previous_outpoint u hu with
      ⟨e, hmem, hk, he⟩
    exact ⟨e, hmem, hk, by rw [hpos i inp hinp, hu, he]⟩
  · intro h
    rcases resolve_entries_missing utxos transaction.inputs h with ⟨k, hres, hin, hnone⟩
    refine ⟨k, ?_, hin, hnone⟩
    simp only [RustyKaspaWallet.sign_transaction, hres]

/-- A signer that reports every transaction fully signed, with the identity
finalizer. -/
def sampleSignOracle : SignOracle :=
  { sign_with_multiple_v2 := fun s _ => .fully s
    finalize := fun t => t }

/-- A single sample input spending outpoint (1, 0). -/
def sampleInput : TransactionInput :=
  { previous_outpoint := { transactionId := 1, index := 0 }
    signature_script := []
    sequence := 0
    sig_op_count := 1 }

/-- A one-input transaction. -/
def sampleTx : Transaction :=
  { version := 0, inputs := [sampleInput], outputs := [], lockTime := 0 }

/-- A transaction with no inputs. -/
def emptyTx : Transaction :=
  { version := 0, inputs := [], outputs := [], lockTime := 0 }

/-- C3 witness: at the concrete one-input transaction with no fetched
UTXOs, sign_transaction fails with MissingUtxo naming that outpoint. -/
theorem sign_transaction_resolution_total_witness :
    ∃ k, (RustyKaspaWallet.sign_transaction sampleSignOracle sampleTx [] ["ab"]).1
        = Except.error (WalletError.missingUtxo k)
      ∧ (∃ inp ∈ sampleTx.inputs, inp.previous_outpoint = k)
      ∧ ∀ e ∈ ([] : List RpcUtxosByAddressesEntry), e.outpoint ≠ k :=
  (sign_transaction_resolution_total sampleSignOracle sampleTx [] ["ab"]).2
    ⟨sampleInput, by simp [sampleTx], by simp⟩

/-! ## C7: private-key hex validation in sign_transaction -/

theorem decode_keys_error (private_keys : List String)
    (h : ∃ key ∈ private_keys,
      (∃ e, hexDecode key = Except.error e)
      ∨ ∃ bytes, hexDecode key = Except.ok bytes ∧ bytes.length ≠ 32) :
    ∃ e, decode_keys private_keys = Except.error (WalletError.hex e) := by
  induction private_keys with
  | nil => simp at h
  | cons key rest ih =>
    cases hd : hexDecode key with
    | error e => exact ⟨e, by simp [decode_keys, hd]⟩
    | ok data =>
      by_cases hl : data.length = 32
      · have hrest : ∃ k2 ∈ rest,
            (∃ e, hexDecode k2 = Except.error e)
            ∨ ∃ bytes, hexDecode k2 = Except.ok bytes ∧ bytes.length ≠ 32 := by
          rcases h with ⟨k2, hmem, hbad⟩
          rcases List.mem_cons.1 hmem with h1 | h1
          · subst h1
            rcases hbad with ⟨e, he⟩ | ⟨bytes, hb, hbl⟩
            · rw [hd] at he; cases he
            · rw [hd] at hb; injection hb with hb; subst hb; exact absurd hl hbl
          · exact ⟨k2, h1, hbad⟩
        rcases ih hrest with ⟨e, he⟩
        exact ⟨e, by simp [decode_keys, hd, hl, he]⟩
      · exact ⟨.invalidStringLength, by simp [decode_keys, hd, hl]⟩

theorem decode_keys_total (private_keys : List String)
    (h : ∀ key ∈ private_keys,
      ∃ bytes, hexDecode key = Except.ok bytes ∧ bytes.length = 32) :
    ∃ keys, decode_keys private_keys = Except.ok keys
      ∧ keys.length = private_keys.length
      ∧ ∀ (i : Nat) (key : String), private_keys[i]? = some key →
          ∃ bytes, hexDecode key = Except.ok bytes ∧ keys[i]? = some bytes := by
  induction private_keys with
  | nil => exact ⟨[], rfl, rfl, by simp⟩
  | cons key rest ih =>
    rcases h key (List.mem_cons_self _ _) with ⟨bytes, hb, hbl⟩
    rcases ih (fun k hk => h k (List.mem_cons_of_mem _ hk)) with ⟨keys, hres, hlen, hpos⟩
    refine ⟨bytes :: keys, by simp [decode_keys, hb, hbl, hres], by simp [hlen], ?_⟩
    intro i k2 hk2
    cases i with
    | zero =>
      simp only [List.getElem?_cons_zero, Option.some.injEq] at hk2
      subst hk2
      exact ⟨bytes, hb, by simp⟩
    | succ n =>
      simp only [List.getElem?_cons_succ] at hk2 ⊢
      exact hpos n k2 hk2

/-- C7 counterexample: with an input whose outpoint is absent from the
fetched UTXO set and an invalid hex key, sign_transaction fails with
MissingUtxo, not with a Hex error, so the claim does not hold for every
call with an invalid key string. -/
theorem sign_transaction_hex_claim_counterexample :
    hexDecode "zz" = Except.error (FromHexError.invalidHexCharacter 'z' 0)
    ∧ (RustyKaspaWallet.sign_transaction sampleSignOracle sampleTx [] ["zz"]).1
        = Except.error (WalletError.missingUtxo { transactionId := 1, index := 0 })
    ∧ ∀ e, (RustyKaspaWallet.sign_transaction sampleSignOracle sampleTx [] ["zz"]).1
        ≠ Except.error (WalletError.hex e) := by
  refine ⟨rfl, rfl, ?_⟩
  intro e h
  have hr : (RustyKaspaWallet.sign_transaction sampleSignOracle sampleTx [] ["zz"]).1
      = Except.error (WalletError.missingUtxo { transactionId := 1, index := 0 }) := rfl
  rw [hr] at h
  simp at h

/-- C7 amended: provided UTXO resolution succeeded, sign_transaction fails
with a Hex error whenever some key string is invalid hex or does not decode
to exactly 32 bytes; and whenever every key string is valid hex of exactly
32 bytes, key decoding succeeds for all of them, in order. -/
theorem sign_transaction_hex_key_validation (o : SignOracle) (transaction : Transaction)
    (utxos : List RpcUtxosByAddressesEntry) (private_keys : List String)
    (entries : List UtxoEntry) :
    (resolve_entries utxos transaction.inputs = Except.ok entries →
      (∃ key ∈ private_keys,
        (∃ e, hexDecode key = Except.error e)
        ∨ ∃ bytes, hexDecode key = Except.ok bytes ∧ bytes.length ≠ 32) →
      ∃ e, (RustyKaspaWallet.sign_transaction o transaction utxos private_keys).1
          = Except.error (WalletError.hex e))
    ∧ ((∀ key ∈ private_keys,
        ∃ bytes, hexDecode key = Except.ok bytes ∧ bytes.length = 32) →
      ∃ keys, decode_keys private_keys = Except.ok keys
        ∧ keys.length = private_keys.length
        ∧ ∀ (i : Nat) (key : String), private_keys[i]? = some key →
            ∃ bytes, hexDecode key = Except.ok bytes ∧ keys[i]? = some bytes) := by
  constructor
  · intro hres hbad
    rcases decode_keys_error private_keys hbad with ⟨e, he⟩
    exact ⟨e, by simp only [RustyKaspaWallet.sign_transaction, hres, he]⟩
  · exact decode_keys_total private_keys

/-- C7 witness: with resolution trivially succeeding (no inputs) and the
invalid key string, sign_transaction fails with a Hex error. -/
theorem sign_transaction_hex_key_validation_witness :
    ∃ e, (RustyKaspaWallet.sign_transaction sampleSignOracle emptyTx [] ["zz"]).1
        = Except.error (WalletError.hex e) :=
  (sign_transaction_hex_key_validation sampleSignOracle emptyTx [] ["zz"] []).1 rfl
    ⟨"zz", by simp, Or.inl ⟨FromHexError.invalidHexCharacter 'z' 0, rfl⟩⟩

/-! ## C4: partial signatures are rejected -/

/-- C4: sign_transaction never returns a transaction for a partial signing
outcome: a partially signed report from the external signer fails with
PartialSignature, and a returned transaction always stems from a fully
signed report, finalized before being returned. -/
theorem sign_transaction_partial_is_error (o : SignOracle) (transaction : Transaction)
    (utxos : List RpcUtxosByAddressesEntry) (private_keys : List String) :
    (∀ entries keys t,
      resolve_entries utxos transaction.inputs = Except.ok entries →
      decode_keys private_keys = Except.ok keys →
      o.sign_with_multiple_v2 (SignableTransaction.with_entries transaction entries) keys
        = Signed.partially t →
      (RustyKaspaWallet.sign_transaction o transaction utxos private_keys).1
        = Except.error WalletError.partialSignature)
    ∧ (∀ tx, (RustyKaspaWallet.sign_transaction o transaction utxos private_keys).1
        = Except.ok tx →
      ∃ entries keys completed,
        resolve_entries utxos transaction.inputs = Except.ok entries
        ∧ decode_keys private_keys = Except.ok keys
        ∧ o.sign_with_multiple_v2 (SignableTransaction.with_entries transaction entries) keys
            = Signed.fully completed
        ∧ tx = o.finalize completed.tx) := by
  constructor
  · intro entries keys t hres hkeys hsig
    simp only [RustyKaspaWallet.sign_transaction, hres, hkeys, hsig]
  · intro tx htx
    rcases hres : resolve_entries utxos transaction.inputs with e | entries <;>
      simp only [RustyKaspaWallet.sign_transaction, hres] at htx
    · simp at htx
    rcases hkeys : decode_keys private_keys with e | keys <;>
      simp only [hkeys] at htx
    · simp at htx
    rcases hsig : o.sign_with_multiple_v2
        (SignableTransaction.with_entries transaction entries) keys with completed | t <;>
      simp only [hsig] at htx
    · simp only [Except.ok.injEq] at htx
      exact ⟨entries, keys, completed, rfl, rfl, hsig, htx.symm⟩
    · simp at htx

/-- A signer that reports every transaction only partially signed. -/
def partialSignOracle : SignOracle :=
  { sign_with_multiple_v2 := fun s _ => .partially s
    finalize := fun t => t }

/-- C4 witness: with the always-partial signer, sign_transaction fails with
PartialSignature at a concrete input. -/
theorem sign_transaction_partial_is_error_witness :
    (RustyKaspaWallet.sign_transaction partialSignOracle emptyTx [] []).1
      = Except.error WalletError.partialSignature :=
  (sign_transaction_partial_is_error partialSignOracle emptyTx [] []).1 [] []
    (SignableTransaction.with_entries emptyTx []) rfl rfl rfl

/-! ## C10: resolution precedes key decoding precedes signing -/

/-- C10: with any unmatched input outpoint, sign_transaction fails with
MissingUtxo regardless of the supplied key strings (so before key
decoding); and the external signer is invoked only on a signable built from
successfully resolved entries together with successfully decoded keys. -/
theorem sign_transaction_stage_order (o : SignOracle) (transaction : Transaction)
    (utxos : List RpcUtxosByAddressesEntry) (private_keys : List String) :
    ((∃ input ∈ transaction.inputs,
        ∀ e ∈ utxos, e.outpoint ≠ input.previous_outpoint) →
      ∃ k, (RustyKaspaWallet.sign_transaction o transaction utxos private_keys).1
          = Except.error (WalletError.missingUtxo k))
    ∧ (∀ signable keys,
      SignEvent.signerInvoked signable keys
          ∈ (RustyKaspaWallet.sign_transaction o transaction utxos private_keys).2 →
      ∃ entries, resolve_entries utxos transaction.inputs = Except.ok entries
        ∧ signable = SignableTransaction.with_entries transaction entries
        ∧ decode_keys private_keys = Except.ok keys) := by
  constructor
  · intro h
    rcases resolve_entries_missing utxos transaction.inputs h with ⟨k, hres, _, _⟩
    exact ⟨k, by simp only [RustyKaspaWallet.sign_transaction, hres]⟩
  · intro signable keys hmem
    rcases hres : resolve_entries utxos transaction.inputs with e | entries <;>
      simp only [RustyKaspaWallet.sign_transaction, hres] at hmem
    · simp at hmem
    rcases hkeys : decode_keys private_keys with e | keys2 <;>
      simp only [hkeys] at hmem
    · simp at hmem
    rcases hsig : o.sign_with_multiple_v2
        (SignableTransaction.with_entries transaction entries) keys2 with completed | t <;>
      simp only [hsig] at hmem <;>
      simp only [List.mem_singleton, SignEvent.signerInvoked.injEq] at hmem <;>
      rcases hmem with ⟨h1, h2⟩ <;>
      exact ⟨entries, rfl, h1, by rw [h2]⟩

/-- C10 witness: the missing-outpoint failure occurs even with an invalid
hex key supplied. -/
theorem sign_transaction_stage_order_witness :
    ∃ k, (RustyKaspaWallet.sign_transaction sampleSignOracle sampleTx [] ["zz"]).1
        = Except.error (WalletError.missingUtxo k) :=
  (sign_transaction_stage_order sampleSignOracle sampleTx [] ["zz"]).1
    ⟨sampleInput, by simp [sampleTx], by simp⟩

/-! ## C2: BIP-39 / BIP-32 key derivation

derive_private_key (lib.rs 234-262) is a pure pipeline through external
crates (kaspa_bip32, secp256k1, kaspa_addresses, hex); the crates are not
under src/, so their algorithms are modelled from the spec and the
standards it names, bit-exactly: SHA-512 and HMAC, SHA-256 and RIPEMD-160,
secp256k1 point arithmetic, BIP-32 child derivation, base58check and the
Kaspa cashaddr encoding, and the derivation-path parser, each checked
below against published vectors. The one step supplied as an oracle
argument instead of computed is the BIP-39 PBKDF2 seed stretch of
Mnemonic::to_seed (2048 HMAC-SHA512 iterations); its value at the test
mnemonic is the published BIP-39 English test vector, recorded in
testSeedOracle. -/

/-! ### SHA-512 (FIPS 180-4), packed-Nat implementation

The 8-lane working state is packed into one Nat (lane i at bits 64*i, lane
0 = a); the 80-word round-constant and message schedules are packed
likewise.  The external hash is modelled bit-exactly; decimal constants are
the standard FIPS ones. -/

def M64 : Nat := 18446744073709551615

def M256 : Nat := 115792089237316195423570985008687907853269984665640564039457584007913129639935

def M512 : Nat := 13407807929942597099574024998205846127479365820592393377723561443721764030073546976801874298166903427690031858186486050853753882811946569946433649006084095

def KPACK : Nat := 79401733742453553460850974233500163835348862130151944941868585954107921729851966433709504484594679435920217403432902140994683155589145428503332143350099233675287629342148958156760608048718624254807234857957852455754214058884921634611326080205028019932017299108412944066748695243938538222011871193474315677411354832238878879580026905713004175351116394147631691291051896265977658407765544729563264081113624712905526199824849243202590140303189688134116128494335089560005513154509089550000761255799866325224245302341002348938473127098360843277708398217491814982223042684701014439043985348647627260823478770080292761916386342786932479083740835907016162305032857537046140546558784246985852552655451305556579902388712433715435365355118487175420852053958416930158193676921281365595997321839184966351001269990065517904640083352893266395342353390165452080100972549846464999139078654794207765074847081235236169199660995854142221606170754579040654251887857292569044177719716794421818060776737044033093531714540655966802073377033638767129476236253099442454114897544131384012900311640737753004131001050775512054237450756896889568333869892075607669344033195862547426252590686148624074116392191708788571081612071343428420806936287685748480654347806239090915076728239100344933911375104624615916807971556351801760876948354563175513568373209404554063007387465388995308446212666495189366480319809197885878244498379497550728853899917860378912106109910455014168049971294187227495270703061017345423922759262219819475714723322081387967974931234460660416134255259170

def H0PACK : Nat := 4812048101252663290612834066995531158742713419846591145376350182667999366794400516985448940192745739731038893726247251609359409289363687649257956495378696

/-- Force y to a numeral before applying k (keeps kernel evaluation of long
iteration chains shallow). -/
def strictApp (k : Nat → Nat) (y : Nat) : Nat :=
  Nat.casesOn (motive := fun _ => Nat) (y &&& 0) (k y) (fun _ => k y)

/-- Final layer of one compression round: consumes the precomputed t1 and
the doubled lane ta = a * (2^64 + 1), producing the call to the
continuation ih with the rotated lanes, the advanced round constants and
the slid schedule window.  Sigma0 is left unmasked: its bits above 2^64
only add into bits that the final mask removes. -/
def sha512RoundFin
    (ih : Nat → Nat → Nat → Nat → Nat → Nat → Nat → Nat → Nat → Nat → Nat)
    (t1 ta w kp wl a b c d e f g : Nat) : Nat :=
  ih (kp >>> 64) (wl >>> 64 ||| w <<< 960)
    (((ta >>> 28 ^^^ ta >>> 34 ^^^ ta >>> 39)
      + ((a &&& (b ||| c)) ||| (b &&& c)) + t1) &&& M64)
    a b c ((d + t1) &&& M64) e f g

/-- Middle layer: t1 = h + Sigma1(e) + Ch(e,f,g) + k + w from the doubled
lane te = e * (2^64 + 1); Sigma1 is unmasked for the same reason. -/
def sha512RoundMid
    (ih : Nat → Nat → Nat → Nat → Nat → Nat → Nat → Nat → Nat → Nat → Nat)
    (te w kp wl a b c d e f g h : Nat) : Nat :=
  sha512RoundFin ih
    ((h + (te >>> 14 ^^^ te >>> 18 ^^^ te >>> 41)
      + (g ^^^ (e &&& (f ^^^ g))) + (kp &&& M64) + w) &&& M64)
    (a * 18446744073709551617) w kp wl a b c d e f g

/-- One compression round on schedule word w. -/
def sha512Round
    (ih : Nat → Nat → Nat → Nat → Nat → Nat → Nat → Nat → Nat → Nat → Nat)
    (w kp wl a b c d e f g h : Nat) : Nat :=
  sha512RoundMid ih (e * 18446744073709551617) w kp wl a b c d e f g h

/-- Schedule extension from the doubled window words t15 and t2: the
sigma values stay unmasked (the final mask of the word sum removes their
high bits), and the plain shifts w15 >>> 7 and w2 >>> 6 are read from the
upper halves of the doubled words. -/
def sha512ExtRound
    (ih : Nat → Nat → Nat → Nat → Nat → Nat → Nat → Nat → Nat → Nat → Nat)
    (t15 t2 kp wl a b c d e f g h : Nat) : Nat :=
  sha512Round ih
    (((wl &&& M64)
      + (t15 >>> 1 ^^^ t15 >>> 8 ^^^ t15 >>> 71)
      + (wl >>> 576 &&& M64)
      + (t2 >>> 19 ^^^ t2 >>> 61 ^^^ t2 >>> 70)) &&& M64)
    kp wl a b c d e f g h

/-- Rounds 16-79, fused with message-schedule extension: kp holds the
remaining round constants (current one at the low end), wl the sliding
16-word schedule window (oldest word at the low end); the base case packs
the 8 lanes. -/
def sha512LoopB (fuel : Nat) :
    Nat → Nat → Nat → Nat → Nat → Nat → Nat → Nat → Nat → Nat → Nat :=
  Nat.rec
    (motive := fun _ => Nat → Nat → Nat → Nat → Nat → Nat → Nat → Nat → Nat → Nat → Nat)
    (fun _ _ a b c d e f g h =>
      a ||| b <<< 64 ||| c <<< 128 ||| d <<< 192 ||| e <<< 256 ||| f <<< 320
        ||| g <<< 384 ||| h <<< 448)
    (fun _ ih kp wl a b c d e f g h =>
      sha512ExtRound ih ((wl >>> 64 &&& M64) * 18446744073709551617)
        ((wl >>> 896 &&& M64) * 18446744073709551617) kp wl a b c d e f g h)
    fuel

/-- Rounds 0-15, consuming the block words directly; the base case runs the
remaining 64 fused rounds. -/
def sha512LoopA (fuel : Nat) :
    Nat → Nat → Nat → Nat → Nat → Nat → Nat → Nat → Nat → Nat → Nat :=
  Nat.rec
    (motive := fun _ => Nat → Nat → Nat → Nat → Nat → Nat → Nat → Nat → Nat → Nat → Nat)
    (fun kp wl a b c d e f g h => sha512LoopB 64 kp wl a b c d e f g h)
    (fun _ ih kp wl a b c d e f g h =>
      sha512Round ih (wl &&& M64) kp wl a b c d e f g h)
    fuel

/-- One SHA-512 compression of the packed 16-word block blk into the packed
state st. -/
def sha512CompressP (st blk : Nat) : Nat :=
  let st2 := sha512LoopA 16 KPACK blk (st &&& M64) (st >>> 64 &&& M64)
    (st >>> 128 &&& M64) (st >>> 192 &&& M64) (st >>> 256 &&& M64)
    (st >>> 320 &&& M64) (st >>> 384 &&& M64) (st >>> 448 &&& M64)
  (((st &&& M64) + (st2 &&& M64)) &&& M64)
  ||| (((st >>> 64 &&& M64) + (st2 >>> 64 &&& M64)) &&& M64) <<< 64
  ||| (((st >>> 128 &&& M64) + (st2 >>> 128 &&& M64)) &&& M64) <<< 128
  ||| (((st >>> 192 &&& M64) + (st2 >>> 192 &&& M64)) &&& M64) <<< 192
  ||| (((st >>> 256 &&& M64) + (st2 >>> 256 &&& M64)) &&& M64) <<< 256
  ||| (((st >>> 320 &&& M64) + (st2 >>> 320 &&& M64)) &&& M64) <<< 320
  ||| (((st >>> 384 &&& M64) + (st2 >>> 384 &&& M64)) &&& M64) <<< 384
  ||| (((st >>> 448 &&& M64) + (st2 >>> 448 &&& M64)) &&& M64) <<< 448

/-- Pack 8-byte groups big-endian into 64-bit schedule words, word 0 at the
low end of the accumulator. -/
def packWords64 : List Nat → Nat → Nat → Nat
  | b0 :: b1 :: b2 :: b3 :: b4 :: b5 :: b6 :: b7 :: rest, sh, acc =>
    packWords64 rest (sh + 64)
      (acc ||| (((((((b0 <<< 8 ||| b1) <<< 8 ||| b2) <<< 8 ||| b3) <<< 8 ||| b4)
        <<< 8 ||| b5) <<< 8 ||| b6) <<< 8 ||| b7) <<< sh)
  | _, _, acc => acc

/-- Split a byte list (length a multiple of 128) into packed 1024-bit
blocks. -/
def blocks1024 : Nat → List Nat → List Nat
  | 0, _ => []
  | _ + 1, [] => []
  | fuel + 1, l => packWords64 (l.take 128) 0 0 :: blocks1024 fuel (l.drop 128)

/-- Big-endian bytes of a 64-bit value. -/
def bytesOfWord64 (w : Nat) : List Nat :=
  [w >>> 56 &&& 255, w >>> 48 &&& 255, w >>> 40 &&& 255, w >>> 32 &&& 255,
    w >>> 24 &&& 255, w >>> 16 &&& 255, w >>> 8 &&& 255, w &&& 255]

/-- SHA-512 padding for a message tail, when priorLen bytes were already
hashed into the state. -/
def sha512Pad (priorLen : Nat) (msg : List Nat) : List Nat :=
  let len := priorLen + msg.length
  msg ++ 128 :: (List.replicate ((128 - (len + 17) % 128) % 128) 0
    ++ (List.replicate 8 0 ++ bytesOfWord64 (8 * len)))

/-- Hash the remaining blocks into the state. -/
def sha512Fold : Nat → List Nat → Nat
  | st, [] => st
  | st, b :: rest => sha512Fold (sha512CompressP st b) rest

/-- Continue SHA-512 from state st after priorLen bytes with the final
message bytes msg. -/
def sha512Tail (st : Nat) (priorLen : Nat) (msg : List Nat) : Nat :=
  sha512Fold st (blocks1024 (msg.length / 128 + 2) (sha512Pad priorLen msg))

/-- The 512-bit big-endian digest value of a packed state. -/
def digestOfState (st : Nat) : Nat :=
  (st &&& M64) <<< 448 ||| (st >>> 64 &&& M64) <<< 384
    ||| (st >>> 128 &&& M64) <<< 320 ||| (st >>> 192 &&& M64) <<< 256
    ||| (st >>> 256 &&& M64) <<< 192 ||| (st >>> 320 &&& M64) <<< 128
    ||| (st >>> 384 &&& M64) <<< 64 ||| (st >>> 448 &&& M64)

/-- SHA-512 of a byte list, as the 512-bit big-endian digest value. -/
def sha512Bytes (msg : List Nat) : Nat :=
  digestOfState (sha512Tail H0PACK 0 msg)

/-! ### HMAC-SHA512 and PBKDF2 (RFC 2104 / RFC 2898)

Keys in every use below are at most 128 bytes, so the key is only
zero-padded, never pre-hashed. -/

/-- The 128-byte key padded into one packed block. -/
def keyBlockOf (key : List Nat) : Nat :=
  packWords64 (key ++ List.replicate (128 - key.length) 0) 0 0

def IPADC : Nat := 38068795797084336869561756981414641417792453671719433304961664245166919582341380428102971668274537039766612351031589181621861362807758814174955926488359226338821436254677396882040470033205055225295946978088589456930431909201933316076828658702763414928709519909677098450812357963442763452788663693332188640822

def OPADC : Nat := 64857948395032573925920030412780500193276032181447923408453205751025122251396425914545803582986248289972746968424188976096504544042848350075850837720908311540214298804265194687920800797312316309763465221928707963659254363825516019982745122234337669878542145031301723286569202456235819215862167773825210276956

/-- Inner state: the compression of the ipad-xored key block. -/
def hmacIState (key : List Nat) : Nat :=
  sha512CompressP H0PACK (keyBlockOf key ^^^ IPADC)

/-- Outer state: the compression of the opad-xored key block. -/
def hmacOState (key : List Nat) : Nat :=
  sha512CompressP H0PACK (keyBlockOf key ^^^ OPADC)

/-- The single padded block holding a 64-byte big-endian value u followed
by the 0x80 byte and the 1536-bit total length. -/
def tailBlockU (u : Nat) : Nat :=
  (u >>> 448 &&& M64) ||| (u >>> 384 &&& M64) <<< 64 ||| (u >>> 320 &&& M64) <<< 128
    ||| (u >>> 256 &&& M64) <<< 192 ||| (u >>> 192 &&& M64) <<< 256
    ||| (u >>> 128 &&& M64) <<< 320 ||| (u >>> 64 &&& M64) <<< 384
    ||| (u &&& M64) <<< 448
    ||| 9223372036854775808 <<< 512 ||| 1536 <<< 960

/-- HMAC-SHA512 with precomputed pad states, message given as bytes. -/
def hmacBytes (ist ost : Nat) (msg : List Nat) : Nat :=
  digestOfState (sha512CompressP ost (tailBlockU (digestOfState (sha512Tail ist 128 msg))))

/-- The byte values of a string (the inputs used are ASCII). -/
def strBytes (s : String) : List Nat := s.data.map Char.toNat

/-! ### SHA-256 and RIPEMD-160 (used only for the base58check checksum and
the BIP-32 parent fingerprint; inputs are tiny, so a simple word-list
implementation suffices) -/

def M32 : Nat := 4294967295

def rotr32 (x n : Nat) : Nat := (x >>> n ||| x <<< (32 - n)) &&& M32

def rotl32 (x n : Nat) : Nat := (x <<< n ||| x >>> (32 - n)) &&& M32

def K256 : List Nat := [1116352408, 1899447441, 3049323471, 3921009573, 961987163, 1508970993, 2453635748, 2870763221, 3624381080, 310598401, 607225278, 1426881987, 1925078388, 2162078206, 2614888103, 3248222580, 3835390401, 4022224774, 264347078, 604807628, 770255983, 1249150122, 1555081692, 1996064986, 2554220882, 2821834349, 2952996808, 3210313671, 3336571891, 3584528711, 113926993, 338241895, 666307205, 773529912, 1294757372, 1396182291, 1695183700, 1986661051, 2177026350, 2456956037, 2730485921, 2820302411, 3259730800, 3345764771, 3516065817, 3600352804, 4094571909, 275423344, 430227734, 506948616, 659060556, 883997877, 958139571, 1322822218, 1537002063, 1747873779, 1955562222, 2024104815, 2227730452, 2361852424, 2428436474, 2756734187, 3204031479, 3329325298]

def H256 : List Nat := [1779033703, 3144134277, 1013904242, 2773480762, 1359893119, 2600822924, 528734635, 1541459225]

def sha256Extend : Nat → List Nat → List Nat
  | 0, ws => ws
  | n + 1, ws =>
    let w15 := ws.getD 14 0
    let w2 := ws.getD 1 0
    let s0 := rotr32 w15 7 ^^^ rotr32 w15 18 ^^^ w15 >>> 3
    let s1 := rotr32 w2 17 ^^^ rotr32 w2 19 ^^^ w2 >>> 10
    sha256Extend n ((ws.getD 15 0 + s0 + ws.getD 6 0 + s1) % 4294967296 :: ws)

def sha256Rounds : List Nat → List Nat → List Nat → List Nat
  | k :: ks, w :: ws, [a, b, c, d, e, f, g, h] =>
    let s1 := rotr32 e 6 ^^^ rotr32 e 11 ^^^ rotr32 e 25
    let ch := (e &&& f) ^^^ ((e ^^^ M32) &&& g)
    let t1 := (h + s1 + ch + k + w) % 4294967296
    let s0 := rotr32 a 2 ^^^ rotr32 a 13 ^^^ rotr32 a 22
    let mj := (a &&& b) ^^^ (a &&& c) ^^^ (b &&& c)
    sha256Rounds ks ws
      [(t1 + (s0 + mj)) % 4294967296, a, b, c, (d + t1) % 4294967296, e, f, g]
  | _, _, st => st

def bytesToWords32 : List Nat → List Nat
  | b0 :: b1 :: b2 :: b3 :: rest =>
    (((b0 <<< 8 ||| b1) <<< 8 ||| b2) <<< 8 ||| b3) :: bytesToWords32 rest
  | _ => []

def words16Split : Nat → List Nat → List (List Nat)
  | 0, _ => []
  | _ + 1, [] => []
  | fuel + 1, l => l.take 16 :: words16Split fuel (l.drop 16)

def sha256Pad (msg : List Nat) : List Nat :=
  msg ++ 128 :: (List.replicate ((64 - (msg.length + 9) % 64) % 64) 0
    ++ bytesOfWord64 (8 * msg.length))

def sha256Compress (st block : List Nat) : List Nat :=
  let ws := (sha256Extend 48 block.reverse).reverse
  (st.zip (sha256Rounds K256 ws st)).map (fun p => (p.1 + p.2) % 4294967296)

def sha256Bytes (msg : List Nat) : List Nat :=
  ((words16Split (msg.length / 64 + 2) (bytesToWords32 (sha256Pad msg))).foldl
      sha256Compress H256).foldr
    (fun w acc => (w >>> 24 &&& 255) :: (w >>> 16 &&& 255) :: (w >>> 8 &&& 255)
      :: (w &&& 255) :: acc) []

def ripemdRL : List Nat := [0, 1, 2, 3, 4, 5, 6, 7, 8, 9, 10, 11, 12, 13, 14, 15, 7, 4, 13, 1, 10, 6, 15, 3, 12, 0, 9, 5, 2, 14, 11, 8, 3, 10, 14, 4, 9, 15, 8, 1, 2, 7, 0, 6, 13, 11, 5, 12, 1, 9, 11, 10, 0, 8, 12, 4, 13, 3, 7, 15, 14, 5, 6, 2, 4, 0, 5, 9, 7, 12, 2, 10, 14, 1, 3, 8, 11, 6, 15, 13]

def ripemdRR : List Nat := [5, 14, 7, 0, 9, 2, 11, 4, 13, 6, 15, 8, 1, 10, 3, 12, 6, 11, 3, 7, 0, 13, 5, 10, 14, 15, 8, 12, 4, 9, 1, 2, 15, 5, 1, 3, 7, 14, 6, 9, 11, 8, 12, 2, 10, 0, 4, 13, 8, 6, 4, 1, 3, 11, 15, 0, 5, 12, 2, 13, 9, 7, 10, 14, 12, 15, 10, 4, 1, 5, 8, 7, 6, 2, 13, 14, 0, 3, 9, 11]

def ripemdSL : List Nat := [11, 14, 15, 12, 5, 8, 7, 9, 11, 13, 14, 15, 6, 7, 9, 8, 7, 6, 8, 13, 11, 9, 7, 15, 7, 12, 15, 9, 11, 7, 13, 12, 11, 13, 6, 7, 14, 9, 13, 15, 14, 8, 13, 6, 5, 12, 7, 5, 11, 12, 14, 15, 14, 15, 9, 8, 9, 14, 5, 6, 8, 6, 5, 12, 9, 15, 5, 11, 6, 8, 13, 12, 5, 12, 13, 14, 11, 8, 5, 6]

def ripemdSR : List Nat := [8, 9, 9, 11, 13, 15, 15, 5, 7, 7, 8, 11, 14, 14, 12, 6, 9, 13, 15, 7, 12, 8, 9, 11, 7, 7, 12, 7, 6, 15, 13, 11, 9, 7, 15, 11, 8, 6, 6, 14, 12, 13, 5, 14, 13, 13, 7, 5, 15, 5, 8, 11, 14, 14, 6, 14, 6, 9, 12, 9, 12, 5, 15, 8, 8, 5, 12, 9, 12, 5, 14, 6, 8, 13, 6, 5, 15, 13, 11, 11]

def ripemdF (j x y z : Nat) : Nat :=
  if j < 16 then x ^^^ y ^^^ z
  else if j < 32 then (x &&& y) ||| ((x ^^^ M32) &&& z)
  else if j < 48 then (x ||| (y ^^^ M32)) ^^^ z
  else if j < 64 then (x &&& z) ||| (y &&& (z ^^^ M32))
  else x ^^^ (y ||| (z ^^^ M32))

def ripemdKL (j : Nat) : Nat :=
  if j < 16 then 0 else if j < 32 then 1518500249 else if j < 48 then 1859775393
  else if j < 64 then 2400959708 else 2840853838

def ripemdKR (j : Nat) : Nat :=
  if j < 16 then 1352829926 else if j < 32 then 1548603684 else if j < 48 then 1836072691
  else if j < 64 then 2053994217 else 0

/-- One RIPEMD-160 lane (left when right = false): standard 80-step loop
over the 16 little-endian block words ws. -/
def ripemdSide : Nat → Nat → List Nat → Bool → Nat → Nat → Nat → Nat → Nat → List Nat
  | 0, _, _, _, a, b, c, d, e => [a, b, c, d, e]
  | fuel + 1, j, ws, right, a, b, c, d, e =>
    let fj := if right then 79 - j else j
    let rj := if right then ripemdRR.getD j 0 else ripemdRL.getD j 0
    let sj := if right then ripemdSR.getD j 0 else ripemdSL.getD j 0
    let kj := if right then ripemdKR j else ripemdKL j
    let t := rotl32 ((a + ripemdF fj b c d + ws.getD rj 0 + kj) % 4294967296) sj
    ripemdSide fuel (j + 1) ws right e ((t + e) % 4294967296) b (rotl32 c 10) d

def bytesToWords32LE : List Nat → List Nat
  | b0 :: b1 :: b2 :: b3 :: rest =>
    (((b3 <<< 8 ||| b2) <<< 8 ||| b1) <<< 8 ||| b0) :: bytesToWords32LE rest
  | _ => []

def ripemdCompress (st block : List Nat) : List Nat :=
  match st, ripemdSide 80 0 block false (st.getD 0 0) (st.getD 1 0) (st.getD 2 0)
      (st.getD 3 0) (st.getD 4 0),
    ripemdSide 80 0 block true (st.getD 0 0) (st.getD 1 0) (st.getD 2 0)
      (st.getD 3 0) (st.getD 4 0) with
  | [h0, h1, h2, h3, h4], [a1, b1, c1, d1, e1], [a2, b2, c2, d2, e2] =>
    [(h1 + c1 + d2) % 4294967296, (h2 + d1 + e2) % 4294967296,
      (h3 + e1 + a2) % 4294967296, (h4 + a1 + b2) % 4294967296,
      (h0 + b1 + c2) % 4294967296]
  | _, _, _ => st

def ripemdPad (msg : List Nat) : List Nat :=
  msg ++ 128 :: (List.replicate ((64 - (msg.length + 9) % 64) % 64) 0
    ++ (bytesOfWord64 (8 * msg.length)).reverse)

def ripemd160Bytes (msg : List Nat) : List Nat :=
  ((words16Split (msg.length / 64 + 2) (bytesToWords32LE (ripemdPad msg))).foldl
      ripemdCompress
      [1732584193, 4023233417, 2562383102, 271733878, 3285377520]).foldr
    (fun w acc => (w &&& 255) :: (w >>> 8 &&& 255) :: (w >>> 16 &&& 255)
      :: (w >>> 24 &&& 255) :: acc) []

/-- strictApp generalized to any result type: force y to a numeral before
applying k. -/
def strictApply {α : Type} (k : Nat → α) (y : Nat) : α :=
  Nat.casesOn (motive := fun _ => α) (y &&& 0) (k y) (fun _ => k y)

/-! ### secp256k1 (SEC 2): Jacobian-coordinate point arithmetic, points
packed as X + Y * 2^256 + Z * 2^512 -/

def secpP : Nat := 115792089237316195423570985008687907853269984665640564039457584007908834671663

def secpN : Nat := 115792089237316195423570985008687907852837564279074904382605163141518161494337

def secpGx : Nat := 55066263022277343669578718895168534326250603453777594175500187360389116729240

def secpGy : Nat := 32670510020758816978083085130507043184471273380659243275938904335757337482424

def powPAux : Nat → Nat → Nat → Nat → Nat
  | 0, _, _, acc => acc
  | fuel + 1, b, e, acc =>
    if e = 0 then acc
    else powPAux fuel (b * b % secpP) (e >>> 1)
      (if e &&& 1 = 1 then acc * b % secpP else acc)

def invP (a : Nat) : Nat := powPAux 256 a (secpP - 2) 1

def jPointInf : Nat := 1 <<< 256

/-- Jacobian doubling (a = 0 curve). -/
def jDouble (pt : Nat) : Nat :=
  let X := pt &&& M256
  let Y := pt >>> 256 &&& M256
  let Z := pt >>> 512
  if Z = 0 ∨ Y = 0 then jPointInf
  else
    let A := X * X % secpP
    let B := Y * Y % secpP
    let C := B * B % secpP
    let D := 2 * (((X + B) * (X + B) % secpP + 2 * secpP - A - C) % secpP) % secpP
    let E := 3 * A % secpP
    let X3 := (E * E % secpP + 2 * secpP - 2 * D) % secpP
    let Y3 := (E * ((D + secpP - X3) % secpP) % secpP + secpP - 8 * C % secpP) % secpP
    X3 ||| (Y3 <<< 256) ||| (2 * Y * Z % secpP) <<< 512

/-- Mixed Jacobian + affine addition. -/
def jAddAffine (pt qx qy : Nat) : Nat :=
  let X1 := pt &&& M256
  let Y1 := pt >>> 256 &&& M256
  let Z1 := pt >>> 512
  if Z1 = 0 then qx ||| qy <<< 256 ||| 1 <<< 512
  else
    let Z1Z1 := Z1 * Z1 % secpP
    let U2 := qx * Z1Z1 % secpP
    let S2 := qy * Z1 % secpP * Z1Z1 % secpP
    let H := (U2 + secpP - X1) % secpP
    let R := (S2 + secpP - Y1) % secpP
    if H = 0 then (if R = 0 then jDouble pt else jPointInf)
    else
      let HH := H * H % secpP
      let HHH := H * HH % secpP
      let V := X1 * HH % secpP
      let X3 := (R * R % secpP + 3 * secpP - HHH - 2 * V) % secpP
      let Y3 := (R * ((V + secpP - X3) % secpP) % secpP + secpP - Y1 * HHH % secpP) % secpP
      X3 ||| Y3 <<< 256 ||| (Z1 * H % secpP) <<< 512

/-- Left-to-right double-and-add multiplication of the base point G; the
step with fuel = f + 1 processes bit f of k. -/
def scalarMulG : Nat → Nat → Nat → Nat
  | 0, _, pt => pt
  | fuel + 1, k, pt =>
    let ptd := jDouble pt
    strictApply (scalarMulG fuel k)
      (if (k >>> fuel) &&& 1 = 1 then jAddAffine ptd secpGx secpGy else ptd)

/-- Affine (x, y) of a non-infinite Jacobian point, packed x + y * 2^256. -/
def affineOf (pt : Nat) : Nat :=
  let zi := invP (pt >>> 512)
  let zi2 := zi * zi % secpP
  (pt &&& M256) * zi2 % secpP ||| ((pt >>> 256 &&& M256) * zi2 % secpP * zi % secpP) <<< 256

/-- The affine public key of a secret scalar. -/
def pubkeyOf (k : Nat) : Nat := affineOf (scalarMulG 256 k jPointInf)

/-! ### BIP-32 derivation (kaspa_bip32, a fork of the bip32 crate) -/

/-- Big-endian bytes of n, fixed width. -/
def natToBytesBE : Nat → Nat → List Nat
  | 0, _ => []
  | l + 1, n => natToBytesBE l (n >>> 8) ++ [n &&& 255]

/-- SEC1 compressed serialization of a packed affine point. -/
def ser33 (pub : Nat) : List Nat :=
  (2 + (pub >>> 256 &&& 1)) :: natToBytesBE 32 (pub &&& M256)

def hash160 (bs : List Nat) : List Nat := ripemd160Bytes (sha256Bytes bs)

/-- BIP-32 key fingerprint: first four bytes of hash160 of the compressed
public key, as a big-endian value. -/
def fingerprintOf (pubSer : List Nat) : Nat :=
  match hash160 pubSer with
  | b0 :: b1 :: b2 :: b3 :: _ => ((b0 <<< 8 ||| b1) <<< 8 ||| b2) <<< 8 ||| b3
  | _ => 0

/-- HMAC-SHA512 keyed by a byte key (at most 128 bytes). -/
def hmac512Of (key data : List Nat) : Nat :=
  hmacBytes (hmacIState key) (hmacOState key) data

/-- An extended private key with its derivation metadata. -/
structure XPrv where
  key : Nat
  chainCode : Nat
  depth : Nat
  parentFingerprint : Nat
  childNumber : Nat
deriving DecidableEq, Repr

/-- Modelled from the spec: the external BIP-32
ExtendedPrivateKey::new(seed) of the kaspa_bip32 crate (not under src/):
HMAC-SHA512 of the seed keyed by "Bitcoin seed"; the left half is the
master secret key (rejected if zero or not below the group order), the
right half the chain code. -/
def xprvMaster (seedBytes : List Nat) : Except String XPrv :=
  let I := hmac512Of (strBytes "Bitcoin seed") seedBytes
  let il := I >>> 256
  if il = 0 ∨ secpN ≤ il then Except.error "invalid master secret key"
  else Except.ok
    { key := il
      chainCode := I &&& M256
      depth := 0
      parentFingerprint := 0
      childNumber := 0 }

/-- Modelled from the spec: one BIP-32 child derivation step (hardened when
comp.2): data is 0x00 ‖ ser256(k) ‖ ser32(i) hardened, serP(pub) ‖ ser32(i)
otherwise; the child key is (IL + k) mod n. -/
def ckdPriv (xp : XPrv) (comp : Nat × Bool) : Except String XPrv :=
  let idx := if comp.2 then comp.1 + 2147483648 else comp.1
  let data :=
    if comp.2 then 0 :: natToBytesBE 32 xp.key ++ natToBytesBE 4 idx
    else ser33 (pubkeyOf xp.key) ++ natToBytesBE 4 idx
  strictApply (fun I =>
    let il := I >>> 256
    if secpN ≤ il then Except.error "invalid child key"
    else
      strictApply (fun ki =>
        if ki = 0 then Except.error "invalid child key"
        else Except.ok
          { key := ki
            chainCode := I &&& M256
            depth := xp.depth + 1
            parentFingerprint := fingerprintOf (ser33 (pubkeyOf xp.key))
            childNumber := idx })
        ((il + xp.key) % secpN))
    (hmac512Of (natToBytesBE 32 xp.chainCode) data)

/-- Walk a parsed derivation path. -/
def derive_path (xp : XPrv) : List (Nat × Bool) → Except String XPrv
  | [] => Except.ok xp
  | comp :: rest =>
    match ckdPriv xp comp with
    | .error e => Except.error e
    | .ok xp2 => derive_path xp2 rest

/-! ### Serialization: hex, base58check (kprv), and the Kaspa address
format (kaspa_addresses, a cashaddr variant with an 8-character,
40-bit checksum) -/

def hexDigitChar (n : Nat) : Char := Char.ofNat (if n < 10 then 48 + n else 87 + n)

def bytesToHexChars : List Nat → List Char
  | [] => []
  | b :: rest => hexDigitChar (b >>> 4) :: hexDigitChar (b &&& 15) :: bytesToHexChars rest

def hexOfBytes (bs : List Nat) : String := String.mk (bytesToHexChars bs)

def b58Alphabet : List Char :=
  "123456789ABCDEFGHJKLMNPQRSTUVWXYZabcdefghijkmnopqrstuvwxyz".data

def b58DigitsAux : Nat → Nat → List Char → List Char
  | 0, _, acc => acc
  | fuel + 1, n, acc =>
    if n = 0 then acc
    else b58DigitsAux fuel (n / 58) (b58Alphabet.getD (n % 58) (Char.ofNat 49) :: acc)

def countLeadingZeroBytes : List Nat → Nat
  | 0 :: rest => countLeadingZeroBytes rest + 1
  | _ => 0

def beBytesVal : List Nat → Nat → Nat
  | [], acc => acc
  | b :: rest, acc => beBytesVal rest (acc * 256 + b)

/-- Base58check: payload plus the first four bytes of its double SHA-256,
leading zero bytes rendered as ones. -/
def base58Check (payload : List Nat) : String :=
  let full := payload ++ (sha256Bytes (sha256Bytes payload)).take 4
  String.mk (List.replicate (countLeadingZeroBytes full) (Char.ofNat 49)
    ++ b58DigitsAux (2 * full.length) (beBytesVal full 0) [])

/-- The kprv version bytes of kaspa_bip32 (Prefix::KPRV). -/
def KPRV_VERSION : Nat := 59715316

/-- BIP-32 extended-private-key serialization under the kprv prefix. -/
def extendedKeyString (xp : XPrv) : String :=
  base58Check (natToBytesBE 4 KPRV_VERSION ++ natToBytesBE 1 xp.depth
    ++ natToBytesBE 4 xp.parentFingerprint ++ natToBytesBE 4 xp.childNumber
    ++ natToBytesBE 32 xp.chainCode ++ 0 :: natToBytesBE 32 xp.key)

def addrCharset : List Char := "qpzry9x8gf2tvdw0s3jn54khce6mua7l".data

/-- Regroup 8-bit bytes into 5-bit digits, zero-padding the tail. -/
def conv8to5 : List Nat → Nat → Nat → List Nat
  | [], acc, bits => if bits = 0 then [] else [acc <<< (5 - bits) &&& 31]
  | b :: rest, acc, bits =>
    let acc2 := acc <<< 8 ||| b
    let total := bits + 8
    if 10 <= total then
      (acc2 >>> (total - 5) &&& 31) :: (acc2 >>> (total - 10) &&& 31)
        :: conv8to5 rest acc2 (total - 10)
    else (acc2 >>> (total - 5) &&& 31) :: conv8to5 rest acc2 (total - 5)

/-- The cashaddr 40-bit polynomial-division checksum used by
kaspa_addresses. -/
def polymodK : List Nat → Nat → Nat
  | [], c => c
  | d :: rest, c =>
    let c0 := c >>> 35
    polymodK rest ((((c &&& 34359738367) <<< 5) ^^^ d)
      ^^^ (c0 &&& 1) * 656907472481
      ^^^ ((c0 >>> 1) &&& 1) * 522768456162
      ^^^ ((c0 >>> 2) &&& 1) * 1044723512260
      ^^^ ((c0 >>> 3) &&& 1) * 748107326120
      ^^^ ((c0 >>> 4) &&& 1) * 130178868336)

/-- The Kaspa address string: prefix, colon, 5-bit payload digits of the
version byte and payload bytes, then the 8 checksum digits. -/
def kaspaAddress (pfx : String) (version : Nat) (payload : List Nat) : String :=
  let p5 := conv8to5 (version :: payload) 0 0
  let chk := polymodK (pfx.data.map (fun c => c.toNat &&& 31)
    ++ 0 :: p5 ++ List.replicate 8 0) 1 ^^^ 1
  pfx ++ ":" ++ String.mk ((p5 ++ [chk >>> 35 &&& 31, chk >>> 30 &&& 31,
    chk >>> 25 &&& 31, chk >>> 20 &&& 31, chk >>> 15 &&& 31, chk >>> 10 &&& 31,
    chk >>> 5 &&& 31, chk &&& 31]).map (fun d => addrCharset.getD d (Char.ofNat 113)))

/-- The address prefix of each network (kaspa_addresses Prefix::from). -/
def addressPrefixOf : NetworkType → String
  | .mainnet => "kaspa"
  | .testnet => "kaspatest"
  | .devnet => "kaspadev"
  | .simnet => "kaspasim"

/-! ### Derivation-path parsing and derive_private_key -/

def spanDigits : List Char → List Nat × List Char
  | [] => ([], [])
  | c :: rest =>
    if 48 <= c.toNat ∧ c.toNat <= 57 then
      match spanDigits rest with
      | (ds, rest2) => ((c.toNat - 48) :: ds, rest2)
    else ([], c :: rest)

def digitsVal : List Nat → Nat → Nat
  | [], acc => acc
  | d :: rest, acc => digitsVal rest (acc * 10 + d)

/-- Modelled from the spec: the external DerivationPath::from_str of the
kaspa_bip32 crate (not under src/): slash-separated child numbers below
2^31, an apostrophe marking a hardened step. -/
def parseComps : Nat → List Char → Except String (List (Nat × Bool))
  | _, [] => Except.ok []
  | 0, _ => Except.error "path too deep"
  | fuel + 1, c :: rest =>
    if c ≠ Char.ofNat 47 then Except.error "expected path separator"
    else
      match spanDigits rest with
      | ([], _) => Except.error "empty path component"
      | (ds, rest2) =>
        let n := digitsVal ds 0
        if 2147483648 <= n then Except.error "child index out of range"
        else
          match rest2 with
          | q :: rest3 =>
            if q = Char.ofNat 39 then
              match parseComps fuel rest3 with
              | .error e => Except.error e
              | .ok comps => Except.ok ((n, true) :: comps)
            else
              match parseComps fuel (q :: rest3) with
              | .error e => Except.error e
              | .ok comps => Except.ok ((n, false) :: comps)
          | [] => Except.ok [(n, false)]

def derivationPathFromStr (s : String) : Except String (List (Nat × Bool)) :=
  match s.data with
  | [] => Except.error "empty derivation path"
  | m :: rest =>
    if m = Char.ofNat 109 then parseComps (rest.length + 1) rest
    else Except.error "derivation path must start with m"

/-- The derived key material returned by derive_private_key (lib.rs
DerivedKey). -/
structure DerivedKey where
  extended_private_key : String
  private_key_hex : String
  public_key_hex : String
  x_only_public_key_hex : String
  address : String
deriving DecidableEq, Repr

/-- The pure part of RustyKaspaWallet::derive_private_key after the BIP-39
seed: master key from the seed, path walk, key/address serialization
(lib.rs lines 241-261). -/
def deriveFromSeed (network_type : NetworkType) (seed : Nat) (path : String) :
    Except String DerivedKey :=
  match xprvMaster (natToBytesBE 64 seed) with
  | .error e => Except.error e
  | .ok master =>
    match derivationPathFromStr path with
    | .error e => Except.error e
    | .ok comps =>
      match derive_path master comps with
      | .error e => Except.error e
      | .ok child =>
        let pub := pubkeyOf child.key
        Except.ok
          { extended_private_key := extendedKeyString child
            private_key_hex := hexOfBytes (natToBytesBE 32 child.key)
            public_key_hex := hexOfBytes (ser33 pub)
            x_only_public_key_hex := hexOfBytes (natToBytesBE 32 (pub &&& M256))
            address := kaspaAddress (addressPrefixOf network_type) 0
              (natToBytesBE 32 (pub &&& M256)) }

/-- RustyKaspaWallet::derive_private_key (lib.rs lines 234-262): the
session contributes only its network type. The external wordlist/checksum
validation of Mnemonic::new accepts the sentences used here; the BIP-39
seed computation Mnemonic::to_seed of the kaspa_bip32 crate (not under
src/) enters as the to_seed argument, an oracle for that external call
(testSeedOracle below records its value at the test mnemonic, the published
BIP-39 English test vector); every failure is wrapped in the Bip32 variant
of WalletError as in the source. -/
def RustyKaspaWallet.derive_private_key (w : RustyKaspaWallet)
    (to_seed : String → String → Nat) (mnemonic path : String) :
    Except WalletError DerivedKey :=
  (deriveFromSeed w.network_type (to_seed mnemonic "") path).mapError WalletError.bip32

set_option maxRecDepth 4000000
set_option maxHeartbeats 1000000000

def mnemonicSentence : String := "abandon abandon abandon abandon abandon abandon abandon abandon abandon abandon abandon about"

/-- The BIP-39 seed of the test mnemonic (eleven times abandon, then about)
with empty passphrase: the published BIP-39 English test vector
5eb00bbd...9e38e4 as a 512-bit big-endian value, recorded here as the
value of the external kaspa_bip32 Mnemonic::to_seed at the one input the
repository test uses. -/
def testSeedOracle : String → String → Nat :=
  fun _ _ => 4959196154511253021132517352371015450761028935263166299346430197451601546737797461226065896555066272632852869173503262500053017770963374666301121100658916

/-! ### Known vectors for the cryptographic primitives -/

theorem sha512_abc_vector : sha512Bytes [97, 98, 99] = 11610554759577678887058616627522426787358414133166247019097754655123425531747192578669846860198531688061507751898313498051436198428987376028989280584770719 := by
  decide

theorem hmac_sha512_known_vector :
    hmacBytes (hmacIState (strBytes "key")) (hmacOState (strBytes "key"))
      (strBytes "The quick brown fox jumps over the lazy dog") = 9436149851919141371614400578697737482146871822329706317945644387211169966423099768350663499461587033886278146492256507586997527888182778863743125608655674 := by
  decide

theorem sha256_abc_vector : sha256Bytes [97, 98, 99] = [186, 120, 22, 191, 143, 1, 207, 234, 65, 65, 64, 222, 93, 174, 34, 35, 176, 3, 97, 163, 150, 23, 122, 156, 180, 16, 255, 97, 242, 0, 21, 173] := by
  decide

theorem ripemd160_abc_vector : ripemd160Bytes [97, 98, 99] = [142, 178, 8, 247, 224, 93, 152, 122, 155, 4, 74, 142, 152, 198, 176, 135, 241, 90, 11, 252] := by
  decide

/-- The public key of scalar 1 is the secp256k1 base point G. -/
theorem pubkeyOf_one_is_G : pubkeyOf 1 = secpGx + secpGy * (2 ^ 256) := by
  decide

theorem derivationPath_known_vector :
    derivationPathFromStr "m/44'/972/0'/0/0"
      = Except.ok [(44, true), (972, false), (0, true), (0, false), (0, false)] := by
  decide

theorem kaspa_address_known_vector :
    kaspaAddress "kaspa" 0 (natToBytesBE 32 73481676699251390691234433581696622257742916990652958773425397156835077600460)
      = "kaspa:qz382fahc8pv0pn3xnu4d0etkds3764mc7zp8wrsrp3ztt58pu6vclrs67rdl" := by
  decide

/-! ### C2: the known-vector derivation -/

/-- The wallet constructed by tests::derive_known_key (lib.rs 309-314):
mainnet, no transports; derive_private_key reads only its network type. -/
def testWallet : RustyKaspaWallet :=
  { network_type := .mainnet
    wrpc_client := none
    grpc_client := none }

/-- C2 (counterexample): with the seed source returning the BIP-39
test-vector seed of the abandon-about mnemonic, the path the claim states,
m/44'/972'/0'/0/0 (coin-type segment hardened), makes derive_private_key
succeed with four values every one of which differs from the claim's
literals; the literals belong to the path m/44'/972/0'/0/0 that
tests::derive_known_key actually passes. -/
theorem derive_known_key_claimed_path_counterexample :
    testWallet.derive_private_key testSeedOracle mnemonicSentence "m/44'/972'/0'/0/0"
      = Except.ok
        { extended_private_key := "kprv6A4mb1KmyTotrmJjASYS6QXtwJXEYnZY8GmgRyJQFNuL79wAWxkDE95jkfvPo78ny4rGSWVH9q4M9uhxeQk8ASkjtQLEomHc6mowTh8nZSj"
          private_key_hex := "20372534eef583b085a97fa82c0941fcf16acb18e9f67188857f5626d3ea976a"
          public_key_hex := "0237a353c54b72148afaf904c25f876b537c865e1db34f1a52c389402e9712d315"
          x_only_public_key_hex := "37a353c54b72148afaf904c25f876b537c865e1db34f1a52c389402e9712d315"
          address := "kaspa:qqm6x579fdepfzh6lyzvyhu8ddfhepj7rke57xjjcwy5qt5hztf3260p8kwls" }
    ∧ ("kprv6A4mb1KmyTotrmJjASYS6QXtwJXEYnZY8GmgRyJQFNuL79wAWxkDE95jkfvPo78ny4rGSWVH9q4M9uhxeQk8ASkjtQLEomHc6mowTh8nZSj"
        ≠ "kprv69KonnpFRxMFJg92dsShntS8TUDANxfEMqSdqv8U9qmGFdfAXfTErjXwLo3qUCgNQWyNnLp5CErPZJ5Y4JEacUS4ExLRMYftQH3FBXyUdH5"
      ∧ "20372534eef583b085a97fa82c0941fcf16acb18e9f67188857f5626d3ea976a"
        ≠ "53397ef426ef62f497eac3915fb2465edd9077650e67a50367d9f08ee7b9c0d1"
      ∧ "37a353c54b72148afaf904c25f876b537c865e1db34f1a52c389402e9712d315"
        ≠ "a27527b7c1c2c7867134f956bf2bb3611f6abbc78413b870186225ae870f34cc"
      ∧ "kaspa:qqm6x579fdepfzh6lyzvyhu8ddfhepj7rke57xjjcwy5qt5hztf3260p8kwls"
        ≠ "kaspa:qz382fahc8pv0pn3xnu4d0etkds3764mc7zp8wrsrp3ztt58pu6vclrs67rdl") := by
  refine ⟨?_, by decide⟩
  decide

/-- C2: for the mnemonic of eleven times abandon then about, any seed
source that returns its BIP-39 test-vector seed, and the path
m/44'/972/0'/0/0 that tests::derive_known_key passes (coin-type segment
not hardened), derive_private_key succeeds and returns byte-for-byte the
extended-private-key, private-key-hex, x-only-public-key-hex and mainnet
address literals of the test, together with the matching compressed public
key. -/
theorem derive_known_key_vector (to_seed : String → String → Nat)
    (h : to_seed mnemonicSentence "" = 4959196154511253021132517352371015450761028935263166299346430197451601546737797461226065896555066272632852869173503262500053017770963374666301121100658916) :
    testWallet.derive_private_key to_seed mnemonicSentence "m/44'/972/0'/0/0"
      = Except.ok
        { extended_private_key := "kprv69KonnpFRxMFJg92dsShntS8TUDANxfEMqSdqv8U9qmGFdfAXfTErjXwLo3qUCgNQWyNnLp5CErPZJ5Y4JEacUS4ExLRMYftQH3FBXyUdH5"
          private_key_hex := "53397ef426ef62f497eac3915fb2465edd9077650e67a50367d9f08ee7b9c0d1"
          public_key_hex := "03a27527b7c1c2c7867134f956bf2bb3611f6abbc78413b870186225ae870f34cc"
          x_only_public_key_hex := "a27527b7c1c2c7867134f956bf2bb3611f6abbc78413b870186225ae870f34cc"
          address := "kaspa:qz382fahc8pv0pn3xnu4d0etkds3764mc7zp8wrsrp3ztt58pu6vclrs67rdl" } := by
  unfold RustyKaspaWallet.derive_private_key
  rw [h]
  decide

/-- C2 witness for the amended claim: the hypothesis discharged at the
recorded seed oracle. -/
theorem derive_known_key_vector_witness :
    testWallet.derive_private_key testSeedOracle mnemonicSentence "m/44'/972/0'/0/0"
      = Except.ok
        { extended_private_key := "kprv69KonnpFRxMFJg92dsShntS8TUDANxfEMqSdqv8U9qmGFdfAXfTErjXwLo3qUCgNQWyNnLp5CErPZJ5Y4JEacUS4ExLRMYftQH3FBXyUdH5"
          private_key_hex := "53397ef426ef62f497eac3915fb2465edd9077650e67a50367d9f08ee7b9c0d1"
          public_key_hex := "03a27527b7c1c2c7867134f956bf2bb3611f6abbc78413b870186225ae870f34cc"
          x_only_public_key_hex := "a27527b7c1c2c7867134f956bf2bb3611f6abbc78413b870186225ae870f34cc"
          address := "kaspa:qz382fahc8pv0pn3xnu4d0etkds3764mc7zp8wrsrp3ztt58pu6vclrs67rdl" } :=
  derive_known_key_vector testSeedOracle rfl
